import Mathlib

/-!
Shallow embedding of the gh-subissue command orchestration core.

Go strings are modelled as Lean `String`s (sequences of characters; Go's
byte-level `len`/slicing coincides with the character level on ASCII input).
Go `int`/`int64` are modelled as `Int`. Fallible Go calls returning
`(T, error)` are modelled as `Except GoErr T`. The API client, the prompter
and the browser opener are explicit records of oracle functions, mirroring
the interface types (`APIClient`, `Prompter`, ...) that the source declares
and mocks in its tests. Each workflow function additionally returns the list
of lines written to its output writer and the trace of collaborator calls it
made, so that claims about warnings and about which API calls happen are
stateable.
-/

namespace GhSubissue

/-- `APIError` from internal/api/errors.go: status code, server message,
attempted operation, remediation hint. -/
structure APIError where
  statusCode : Int
  message : String
  operation : String
  hint : String
deriving Repr, DecidableEq

/-- `APIError.Error()`: "op: msg" with an optional "\n\nHint: h" suffix. -/
def APIError.render (e : APIError) : String :=
  if e.hint ≠ "" then e.operation ++ ": " ++ e.message ++ "\n\nHint: " ++ e.hint
  else e.operation ++ ": " ++ e.message

/-- A Go `error` value: either a classified `*APIError` or a plain message
(`errors.New` / `fmt.Errorf`). -/
inductive GoErr where
  | api (e : APIError)
  | msg (s : String)
deriving Repr, DecidableEq

/-- Rendering of a Go error by `%v` / `%w`. -/
def GoErr.text : GoErr → String
  | .api e => e.render
  | .msg s => s

instance {ε α : Type} [DecidableEq ε] [DecidableEq α] : DecidableEq (Except ε α) := by
  intro a b
  cases a <;> cases b
  case error.error x y =>
    exact if h : x = y then .isTrue (by rw [h]) else .isFalse (by simp [h])
  case ok.ok x y =>
    exact if h : x = y then .isTrue (by rw [h]) else .isFalse (by simp [h])
  case error.ok x y => exact .isFalse (by simp)
  case ok.error x y => exact .isFalse (by simp)

/-- `newAPIError` from internal/api/errors.go: attaches the hint keyed by
status code. -/
def newAPIError (statusCode : Int) (message operation : String) : APIError :=
  { statusCode := statusCode, message := message, operation := operation,
    hint :=
      if statusCode = 401 then "Run 'gh auth login' to authenticate"
      else if statusCode = 403 then "Check that you have write access to this repository"
      else if statusCode = 404 then "Verify the repository exists and you have access to it"
      else if statusCode = 410 then "Issues are disabled for this repository. Enable them in repository Settings > Features"
      else if statusCode = 422 then "Check that all required fields are provided and valid"
      else if statusCode = 429 then "Rate limited by GitHub. Wait a moment and try again"
      else "" }

/-- `IsNotFound` from internal/api/errors.go. -/
def isNotFound : GoErr → Bool
  | .api e => e.statusCode = 404
  | .msg _ => false

/-- `IsDisabled` from internal/api/errors.go. -/
def isDisabled : GoErr → Bool
  | .api e => e.statusCode = 410
  | .msg _ => false

/-- Go's `%q` for strings, for the printable-ASCII fragment the workflows
produce: wraps in double quotes, escaping backslash and double quote. -/
def goQuoteChar (c : Char) : List Char :=
  if c = '"' then ['\\', '"']
  else if c = '\\' then ['\\', '\\']
  else [c]

/-- Go's `%q` string verb (printable-ASCII fragment). -/
def goQuote (s : String) : String :=
  "\"" ++ String.mk (s.data.map goQuoteChar).flatten ++ "\""

/-- Go's `strings.Split` with a one-character separator, on the character
list of the string. `Split("", sep) = [""]`, `Split("/", "/") = ["", ""]`. -/
def splitOnChar (sep : Char) : List Char → List (List Char)
  | [] => [[]]
  | c :: cs =>
    if c = sep then [] :: splitOnChar sep cs
    else
      match splitOnChar sep cs with
      | [] => [[c]]
      | p :: ps => (c :: p) :: ps

/-- `ParseRepo` from cmd/create.go: reject the empty string, split on "/",
demand exactly two parts, return them as (owner, repo). -/
def parseRepo (s : String) : Except GoErr (String × String) :=
  if s = "" then .error (.msg "repository cannot be empty")
  else
    match splitOnChar '/' s.data with
    | [o, r] => .ok (String.mk o, String.mk r)
    | _ => .error (.msg ("invalid repository format: " ++ goQuote s ++ " (expected owner/repo)"))

/-- `strings.TrimSpace` (ASCII whitespace fragment). -/
def isSpaceChar (c : Char) : Bool :=
  c = ' ' || c = '\t' || c = '\n' || c = '\r'

/-- `strings.TrimSpace`. -/
def goTrimSpace (s : String) : String :=
  String.mk (((s.data.dropWhile isSpaceChar).reverse.dropWhile isSpaceChar).reverse)

/-- `api.Issue`: id (int64), number, title, url. -/
structure Issue where
  id : Int
  number : Int
  title : String
  url : String
deriving Repr, DecidableEq

/-- `api.IssueResult` (response of CreateIssue): opaque internal id, number, url. -/
structure IssueResult where
  id : Int
  number : Int
  url : String
deriving Repr, DecidableEq

/-- `api.Project`: opaque mutation id, human-facing title, number. -/
structure Project where
  id : String
  title : String
  number : Int
deriving Repr, DecidableEq

/-- `api.CreateIssueOptions`. -/
structure CreateIssueOptions where
  owner : String
  repo : String
  title : String
  body : String
  labels : List String
  assignees : List String
  milestone : Int
deriving Repr, DecidableEq

/-- `api.LinkSubIssueOptions`. -/
structure LinkSubIssueOptions where
  owner : String
  repo : String
  parentIssue : Int
  subIssueID : Int
deriving Repr, DecidableEq

/-- `api.ListIssuesOptions`. -/
structure ListIssuesOptions where
  owner : String
  repo : String
  state : String
  perPage : Int
deriving Repr, DecidableEq

/-- `cmd.OptionalString`: a flag value that tracks whether it was set. -/
structure OptionalString where
  value : String
  wasSet : Bool
deriving Repr, DecidableEq

/-- `cmd.Options` for the create command. -/
structure Options where
  parent : Int
  title : String
  body : String
  bodyFile : String
  repo : String
  assignees : List String
  labels : List String
  milestone : Int
  web : Bool
  project : OptionalString
deriving Repr, DecidableEq

/-- The `cmd.APIClient` interface, as a record of oracle functions. -/
structure APIClient where
  createIssue : CreateIssueOptions → Except GoErr IssueResult
  linkSubIssue : LinkSubIssueOptions → Except GoErr Unit
  getIssue : String → String → Int → Except GoErr Issue
  listIssues : ListIssuesOptions → Except GoErr (List Issue)
  listProjects : String → String → Except GoErr (List Project)
  getIssueNodeID : String → String → Int → Except GoErr String
  addIssueToProject : String → String → Except GoErr Unit

/-- The `cmd.Prompter` capability: `Select(prompt, default, options) -> index`
and `Input(prompt, default) -> text`. -/
structure Prompter where
  select : String → String → List String → Except GoErr Int
  input : String → String → Except GoErr String

/-- One collaborator call made during a workflow run (for trace claims). -/
inductive Call where
  | createIssue (o : CreateIssueOptions)
  | linkSubIssue (o : LinkSubIssueOptions)
  | getIssue (owner repo : String) (number : Int)
  | listIssues (o : ListIssuesOptions)
  | listProjects (owner repo : String)
  | getIssueNodeID (owner repo : String) (number : Int)
  | addIssueToProject (projectID nodeID : String)
  | promptSelect (prompt : String) (options : List String)
  | promptInput (prompt defVal : String)
  | openBrowser (url : String)
  | readFile (path : String)
  | readStdin
deriving Repr, DecidableEq

/-- `cmd.Runner` for the create command. The output writer is modelled by the
returned write list; `fileSystem` stands for the ambient `os.ReadFile`;
`stdin` is `none` for a nil reader, otherwise the outcome of reading it. -/
structure Runner where
  client : APIClient
  owner : String
  repo : String
  validateParent : Bool
  openBrowser : Option (String → Except GoErr Unit)
  prompter : Option Prompter
  stdin : Option (Except GoErr String)
  fileSystem : String → Except GoErr String

/-- Outcome of a create-command run: the returned error (if any), the lines
written to the output writer in order, and the collaborator call trace. -/
structure RunResult where
  result : Except GoErr Unit
  writes : List String
  calls : List Call
deriving Repr

/-- `ReadBody` from cmd/create.go: the literal path "-" reads the standard
input stream (nil reader is an error); otherwise read the file. -/
def readBody (r : Runner) (path : String) : Except GoErr String × List Call :=
  if path = "-" then
    match r.stdin with
    | none => (.error (.msg "stdin is nil"), [])
    | some res =>
      match res with
      | .ok s => (.ok s, [.readStdin])
      | .error e => (.error (.msg ("failed to read from stdin: " ++ e.text)), [.readStdin])
  else
    match r.fileSystem path with
    | .ok s => (.ok s, [.readFile path])
    | .error e => (.error (.msg ("failed to read file " ++ goQuote path ++ ": " ++ e.text)), [.readFile path])

/-- Title rendering in cmd/select.go: titles longer than 50 are cut to the
first 47 characters plus "...". -/
def truncateTitle (t : String) : String :=
  if t.data.length > 50 then String.mk (t.data.take 47) ++ "..." else t

/-- One selection option: `"#<number> <title>"`. -/
def issueOption (i : Issue) : String :=
  "#" ++ toString i.number ++ " " ++ truncateTitle i.title

/-- `SelectParentIssue` from cmd/select.go. Out-of-range selection indices
(impossible with the real prompter) are modelled as a runtime panic error. -/
def selectParentIssue (p : Prompter) (issues : List Issue) : Except GoErr Int × List Call :=
  if issues.length = 0 then
    (.error (.msg "no open issues found in repository\n\nTo create a parent issue first:\n  gh issue create\n\nOr use --parent with an existing issue number"), [])
  else
    let options := issues.map issueOption
    match p.select "Select parent issue" "" options with
    | .error e => (.error e, [.promptSelect "Select parent issue" options])
    | .ok idx =>
      if h : 0 ≤ idx ∧ idx.toNat < issues.length then
        (.ok (issues.get ⟨idx.toNat, h.2⟩).number, [.promptSelect "Select parent issue" options])
      else
        (.error (.msg "panic: runtime error: index out of range"), [.promptSelect "Select parent issue" options])

/-- `SelectProject` from cmd/select.go: options are `"<title> (#<number>)"`. -/
def selectProject (p : Prompter) (projects : List Project) : Except GoErr Project × List Call :=
  if projects.length = 0 then
    (.error (.msg "no projects found for this repository"), [])
  else
    let options := projects.map (fun pr => pr.title ++ " (#" ++ toString pr.number ++ ")")
    match p.select "Select project" "" options with
    | .error e => (.error e, [.promptSelect "Select project" options])
    | .ok idx =>
      if h : 0 ≤ idx ∧ idx.toNat < projects.length then
        (.ok (projects.get ⟨idx.toNat, h.2⟩), [.promptSelect "Select project" options])
      else
        (.error (.msg "panic: runtime error: index out of range"), [.promptSelect "Select project" options])

/-- The error returned when no parent was given and no prompter exists
(Runner.Run, parent-selection branch). -/
def parentRequiredMsg : String :=
  "--parent flag is required when not running interactively\n\nTip: Run in a terminal for interactive parent selection, or use --parent to specify the parent issue number"

/-- The error returned when no title was given and no prompter exists. -/
def titleRequiredMsg : String :=
  "--title flag is required when not running interactively\n\nTip: Run in a terminal for interactive input, or use --title to specify the issue title"

/-- Parent resolution block of Runner.Run (create): a zero parent requires
the prompter, then lists open issues (first page, page size 30) and selects. -/
def resolveParent (r : Runner) (parent : Int) : Except GoErr Int × List Call :=
  if parent = 0 then
    match r.prompter with
    | none => (.error (.msg parentRequiredMsg), [])
    | some p =>
      let lio : ListIssuesOptions := ⟨r.owner, r.repo, "open", 30⟩
      match r.client.listIssues lio with
      | .error e => (.error (.msg ("failed to list issues: " ++ e.text)), [.listIssues lio])
      | .ok issues =>
        let sel := selectParentIssue p issues
        (sel.1, .listIssues lio :: sel.2)
  else (.ok parent, [])

/-- Title resolution block of Runner.Run: an empty title requires the
prompter; the prompted text is trimmed and must be non-empty. -/
def resolveTitle (r : Runner) (title : String) : Except GoErr String × List Call :=
  if title = "" then
    match r.prompter with
    | none => (.error (.msg titleRequiredMsg), [])
    | some p =>
      match p.input "Title" "" with
      | .error e => (.error (.msg ("failed to get title: " ++ e.text)), [.promptInput "Title" ""])
      | .ok t =>
        let t2 := goTrimSpace t
        if t2 = "" then (.error (.msg "title cannot be empty"), [.promptInput "Title" ""])
        else (.ok t2, [.promptInput "Title" ""])
  else (.ok title, [])

/-- Body resolution block of Runner.Run: a body file overrides the literal
body string. -/
def resolveBody (r : Runner) (body bodyFile : String) : Except GoErr String × List Call :=
  if bodyFile ≠ "" then readBody r bodyFile else (.ok body, [])

/-- Parent validation block of Runner.Run (enabled by the ValidateParent
configuration flag). -/
def validateParentStep (r : Runner) (parent : Int) : Except GoErr Unit × List Call :=
  if r.validateParent then
    match r.client.getIssue r.owner r.repo parent with
    | .error e =>
      (.error (.msg ("parent issue #" ++ toString parent ++ " not found: " ++ e.text)), [.getIssue r.owner r.repo parent])
    | .ok _ => (.ok (), [.getIssue r.owner r.repo parent])
  else (.ok (), [])

/-- The warning block written when linking fails after a successful create. -/
def linkFailWrites (r : Runner) (parent : Int) (result : IssueResult) (linkErr : GoErr) : List String :=
  ["Warning: Issue created but failed to link as sub-issue: " ++ linkErr.text ++ "\n",
   "Issue URL: " ++ result.url ++ "\n",
   "To manually link, run:\n",
   "  gh api repos/" ++ r.owner ++ "/" ++ r.repo ++ "/issues/" ++ toString parent ++ "/sub_issues -f sub_issue_id=" ++ toString result.id ++ "\n"]

/-- Tail of Runner.addToProject once a project is selected: fetch the issue
node id and submit the mutation; failures are warnings. -/
def finishAddToProject (r : Runner) (result : IssueResult) (proj : Project) (calls : List Call) : List String × List Call :=
  match r.client.getIssueNodeID r.owner r.repo result.number with
  | .error e =>
    (["Warning: failed to get issue node ID: " ++ e.text ++ "\n"],
     calls ++ [.getIssueNodeID r.owner r.repo result.number])
  | .ok nodeID =>
    match r.client.addIssueToProject proj.id nodeID with
    | .error e =>
      (["Warning: failed to add issue to project: " ++ e.text ++ "\n"],
       calls ++ [.getIssueNodeID r.owner r.repo result.number, .addIssueToProject proj.id nodeID])
    | .ok _ =>
      ([], calls ++ [.getIssueNodeID r.owner r.repo result.number, .addIssueToProject proj.id nodeID])

/-- `Runner.addToProject` (create command): every failure writes a warning
and aborts project assignment; nothing here can fail the workflow. -/
def addToProject (r : Runner) (opts : Options) (result : IssueResult) : List String × List Call :=
  match r.client.listProjects r.owner r.repo with
  | .error e => (["Warning: failed to list projects: " ++ e.text ++ "\n"], [.listProjects r.owner r.repo])
  | .ok projects =>
    let lp := Call.listProjects r.owner r.repo
    if opts.project.value = "" then
      match r.prompter with
      | none => (["Warning: --project requires a project name when not running interactively\n"], [lp])
      | some p =>
        if projects.length = 0 then
          (["Warning: no projects found for this repository\n"], [lp])
        else
          let sel := selectProject p projects
          match sel.1 with
          | .error e => (["Warning: failed to select project: " ++ e.text ++ "\n"], lp :: sel.2)
          | .ok proj => finishAddToProject r result proj (lp :: sel.2)
    else
      match projects.find? (fun pr => pr.title == opts.project.value) with
      | none => (["Warning: project " ++ goQuote opts.project.value ++ " not found\n"], [lp])
      | some proj => finishAddToProject r result proj [lp]

/-- Report block of Runner.Run: print the URL, then open the browser when
the web flag is set and an opener exists; opener failure is a warning. -/
def reportPhase (r : Runner) (web : Bool) (url : String) : List String × List Call :=
  match web, r.openBrowser with
  | true, some ob =>
    match ob url with
    | .error e => ([url ++ "\n", "Warning: failed to open browser: " ++ e.text ++ "\n"], [.openBrowser url])
    | .ok _ => ([url ++ "\n"], [.openBrowser url])
  | _, _ => ([url ++ "\n"], [])

/-- `Runner.Run` for the create command (cmd/create.go): resolve parent,
resolve title, resolve body, optionally validate the parent, create the
issue, link it as a sub-issue (link failure warns and returns success,
skipping project assignment and the report block), optionally assign a
project, report. -/
def Runner.run (r : Runner) (opts : Options) : RunResult :=
  match resolveParent r opts.parent with
  | (.error e, cs1) => ⟨.error e, [], cs1⟩
  | (.ok parent, cs1) =>
    match resolveTitle r opts.title with
    | (.error e, cs2) => ⟨.error e, [], cs1 ++ cs2⟩
    | (.ok title, cs2) =>
      match resolveBody r opts.body opts.bodyFile with
      | (.error e, cs3) => ⟨.error e, [], cs1 ++ cs2 ++ cs3⟩
      | (.ok body, cs3) =>
        match validateParentStep r parent with
        | (.error e, cs4) => ⟨.error e, [], cs1 ++ cs2 ++ cs3 ++ cs4⟩
        | (.ok _, cs4) =>
          let cio : CreateIssueOptions :=
            ⟨r.owner, r.repo, title, body, opts.labels, opts.assignees, opts.milestone⟩
          match r.client.createIssue cio with
          | .error e => ⟨.error e, [], cs1 ++ cs2 ++ cs3 ++ cs4 ++ [.createIssue cio]⟩
          | .ok result =>
            let lso : LinkSubIssueOptions := ⟨r.owner, r.repo, parent, result.id⟩
            let pre := cs1 ++ cs2 ++ cs3 ++ cs4 ++ [.createIssue cio, .linkSubIssue lso]
            match r.client.linkSubIssue lso with
            | .error linkErr => ⟨.ok (), linkFailWrites r parent result linkErr, pre⟩
            | .ok _ =>
              let pw := if opts.project.wasSet then addToProject r opts result else ([], [])
              let rep := reportPhase r opts.web result.url
              ⟨.ok (), pw.1 ++ rep.1, pre ++ pw.2 ++ rep.2⟩

/-- `cmd.EditOptions`. -/
structure EditOptions where
  issueNumber : Int
  project : OptionalString
  repo : String
deriving Repr, DecidableEq

/-- Go's `strconv.Atoi` (without the int64 range check): optional single
sign, then one or more decimal digits. -/
def goAtoi (s : String) : Option Int :=
  match s.data with
  | [] => none
  | c :: rest =>
    let signed : Bool × List Char :=
      if c = '-' then (true, rest)
      else if c = '+' then (false, rest)
      else (false, c :: rest)
    match signed with
    | (neg, ds) =>
      if ds.isEmpty then none
      else if ds.all Char.isDigit then
        let n : Nat := ds.foldl (fun acc d => acc * 10 + (d.toNat - 48)) 0
        some (if neg then -(n : Int) else (n : Int))
      else none

/-- One step of Go's `flag` package argument loop for the edit flag set
(string-valued flags `-project`/`-P`/`-repo`/`-R`): stop at the first
non-flag argument or at "--"; `-flag=value` or `-flag value`; unknown flags
and missing values are errors. -/
def editFlagLoop : List String → EditOptions → Except GoErr EditOptions
  | [], opts => .ok opts
  | s :: rest, opts =>
    if s.data.length < 2 || s.data.head? ≠ some '-' then .ok opts
    else if s = "--" then .ok opts
    else
      let body1 := s.data.drop 1
      let body := if body1.head? = some '-' then body1.drop 1 else body1
      match body with
      | [] => .error (.msg ("bad flag syntax: " ++ s))
      | c0 :: _ =>
        if c0 = '-' ∨ c0 = '=' then .error (.msg ("bad flag syntax: " ++ s))
        else
          let name := String.mk (body.takeWhile (fun c => c ≠ '='))
          let valPart : Option String :=
            if body.any (fun c => c = '=') then
              some (String.mk ((body.dropWhile (fun c => c ≠ '=')).drop 1))
            else none
          if name = "project" ∨ name = "P" then
            match valPart with
            | some v => editFlagLoop rest { opts with project := ⟨v, true⟩ }
            | none =>
              match rest with
              | [] => .error (.msg ("flag needs an argument: -" ++ name))
              | v :: rest2 => editFlagLoop rest2 { opts with project := ⟨v, true⟩ }
          else if name = "repo" ∨ name = "R" then
            match valPart with
            | some v => editFlagLoop rest { opts with repo := v }
            | none =>
              match rest with
              | [] => .error (.msg ("flag needs an argument: -" ++ name))
              | v :: rest2 => editFlagLoop rest2 { opts with repo := v }
          else .error (.msg ("flag provided but not defined: -" ++ name))

/-- `ParseEditFlags` from cmd/edit.go: the first argument must be the issue
number; the flag set is parsed only over the remaining arguments. -/
def parseEditFlags (args : List String) : Except GoErr EditOptions :=
  match args with
  | [] => .error (.msg "issue number is required")
  | a :: rest =>
    match goAtoi a with
    | none => .error (.msg ("invalid issue number: " ++ a))
    | some n =>
      let opts0 : EditOptions := { issueNumber := n, project := ⟨"", false⟩, repo := "" }
      if rest.length > 0 then editFlagLoop rest opts0 else .ok opts0

/-- The `cmd.EditAPIClient` interface, as a record of oracle functions. -/
structure EditAPIClient where
  listProjects : String → String → Except GoErr (List Project)
  getIssueNodeID : String → String → Int → Except GoErr String
  addIssueToProject : String → String → Except GoErr Unit

/-- `cmd.EditRunner`. -/
structure EditRunner where
  client : EditAPIClient
  owner : String
  repo : String
  prompter : Option Prompter

/-- Outcome of an edit-command run. -/
structure EditRunResult where
  result : Except GoErr Unit
  writes : List String
  calls : List Call
deriving Repr

/-- Go's `%v` for a string slice: elements joined by single spaces inside
square brackets. -/
def goStringsFmt (names : List String) : String :=
  "[" ++ String.intercalate " " names ++ "]"

/-- Tail of EditRunner.Run once a project is selected: fetch the issue node
id and submit the mutation; here every failure is FATAL (unlike create). -/
def editFinish (r : EditRunner) (opts : EditOptions) (proj : Project) (calls : List Call) : EditRunResult :=
  match r.client.getIssueNodeID r.owner r.repo opts.issueNumber with
  | .error e =>
    ⟨.error (.msg ("failed to get issue: " ++ e.text)), [],
     calls ++ [.getIssueNodeID r.owner r.repo opts.issueNumber]⟩
  | .ok nodeID =>
    match r.client.addIssueToProject proj.id nodeID with
    | .error e =>
      ⟨.error (.msg ("failed to add issue to project: " ++ e.text)), [],
       calls ++ [.getIssueNodeID r.owner r.repo opts.issueNumber, .addIssueToProject proj.id nodeID]⟩
    | .ok _ =>
      ⟨.ok (), ["Added issue #" ++ toString opts.issueNumber ++ " to project " ++ goQuote proj.title ++ "\n"],
       calls ++ [.getIssueNodeID r.owner r.repo opts.issueNumber, .addIssueToProject proj.id nodeID]⟩

/-- `EditRunner.Run` from cmd/edit.go: requires the project option to be set
("no edit operation specified" otherwise); all project-assignment failures
return errors. -/
def editRun (r : EditRunner) (opts : EditOptions) : EditRunResult :=
  if !opts.project.wasSet then
    ⟨.error (.msg "no edit options specified (use --project to add to a project)"), [], []⟩
  else
    match r.client.listProjects r.owner r.repo with
    | .error e => ⟨.error (.msg ("failed to list projects: " ++ e.text)), [], [.listProjects r.owner r.repo]⟩
    | .ok projects =>
      let lp := Call.listProjects r.owner r.repo
      if opts.project.value = "" then
        match r.prompter with
        | none =>
          match projects with
          | [] =>
            ⟨.error (.msg ("no projects found for this repository\nCreate a project at: https://github.com/" ++ r.owner ++ "/" ++ r.repo ++ "/projects")), [], [lp]⟩
          | p0 :: _ =>
            ⟨.error (.msg ("--project requires a project name when not running interactively\nAvailable projects: " ++ goStringsFmt (projects.map Project.title) ++ "\nExample: gh subissue edit " ++ toString opts.issueNumber ++ " --project " ++ goQuote p0.title)), [], [lp]⟩
        | some p =>
          match projects with
          | [] =>
            ⟨.error (.msg ("no projects found for this repository\nCreate a project at: https://github.com/" ++ r.owner ++ "/" ++ r.repo ++ "/projects")), [], [lp]⟩
          | _ :: _ =>
            let sel := selectProject p projects
            match sel.1 with
            | .error e => ⟨.error e, [], lp :: sel.2⟩
            | .ok proj => editFinish r opts proj (lp :: sel.2)
      else
        match projects.find? (fun pr => pr.title == opts.project.value) with
        | none =>
          ⟨.error (.msg ("project " ++ goQuote opts.project.value ++ " not found\nAvailable projects: " ++ goStringsFmt (projects.map Project.title))), [], [lp]⟩
        | some proj => editFinish r opts proj [lp]

/-- `api.Repository` (fields used by the repos command). -/
structure Repository where
  name : String
  fullName : String
  hasIssues : Bool
  archived : Bool
deriving Repr, DecidableEq

/-- `api.User`. -/
structure User where
  login : String
deriving Repr, DecidableEq

/-- `api.ListRepositoriesOptions`. -/
structure ListRepositoriesOptions where
  owner : String
  perPage : Int
  page : Int
deriving Repr, DecidableEq

/-- The `cmd.ReposAPIClient` interface, as a record of oracle functions. -/
structure ReposAPIClient where
  listRepositories : ListRepositoriesOptions → Except GoErr (List Repository)
  getAuthenticatedUser : Except GoErr User

/-- `cmd.ReposOptions`. -/
structure ReposOptions where
  owner : String
  limit : Int
  enabled : Bool
  disabled : Bool
  noHeader : Bool
deriving Repr, DecidableEq

/-- `cmd.ReposRunner`. -/
structure ReposRunner where
  client : ReposAPIClient

/-- Outcome of a repos-command run, with the page-request trace. -/
structure ReposRunResult where
  result : Except GoErr Unit
  writes : List String
  calls : List ListRepositoriesOptions
deriving Repr

/-- The pagination loop of ReposRunner.Run: while the accumulated count is
below the limit, request the next page (fixed page size); stop on an empty
page or a short page; errors abort. Terminates because every iteration that
recurses appended at least one repository. -/
def fetchRepoPages (client : ReposAPIClient) (owner : String) (limit perPage page : Int)
    (acc : List Repository) : Except GoErr (List Repository) × List ListRepositoriesOptions :=
  if h : (acc.length : Int) < limit then
    let req : ListRepositoriesOptions := ⟨owner, perPage, page⟩
    match client.listRepositories req with
    | .error e => (.error e, [req])
    | .ok repos =>
      if h0 : repos.length = 0 then (.ok acc, [req])
      else if (repos.length : Int) < perPage then (.ok (acc ++ repos), [req])
      else
        let rest := fetchRepoPages client owner limit perPage (page + 1) (acc ++ repos)
        (rest.1, req :: rest.2)
  else (.ok acc, [])
termination_by (limit - acc.length).toNat
decreasing_by
  simp only [List.length_append]
  omega

/-- Line 139 of cmd/repos.go: a repository is enabled iff it has issues
enabled and is not archived. -/
def repoEnabled (repo : Repository) : Bool :=
  repo.hasIssues && !repo.archived

/-- The filter loop of ReposRunner.Run: skip repositories excluded by the
enabled/disabled flags. -/
def filterRepos (opts : ReposOptions) (repos : List Repository) : List Repository :=
  repos.filter (fun repo => !(opts.enabled && !repoEnabled repo) && !(opts.disabled && repoEnabled repo))

/-- `repoStatus` from cmd/repos.go. -/
def repoStatus (repo : Repository) : String :=
  if repo.archived then "disabled (archived)"
  else if !repo.hasIssues then "disabled (issues off)"
  else "enabled"

/-- Go's `%-19s`-style padding: pad on the right with spaces to the width. -/
def goPadRight (s : String) (w : Nat) : String :=
  s ++ String.mk (List.replicate (w - s.data.length) ' ')

/-- The tail of ReposRunner.Run after the pagination loop: truncate the
accumulated list to the limit, apply the enabled/disabled filters, and
render the messages or the table (header plus one row per repository). -/
def reposRender (opts : ReposOptions) (owner : String) (raw : List Repository) : List String :=
  let allRepos := if (raw.length : Int) > opts.limit then raw.take opts.limit.toNat else raw
  let filtered := filterRepos opts allRepos
  if filtered.length = 0 then
    if opts.enabled || opts.disabled then
      ["No matching repositories found for " ++ owner ++ "\n"]
    else
      ["No repositories found for " ++ owner ++ "\n"]
  else
    (if !opts.noHeader then [goPadRight "REPOSITORY" 19 ++ " " ++ "SUB-ISSUES" ++ "\n"] else []) ++
      filtered.map (fun repo => goPadRight repo.fullName 19 ++ " " ++ repoStatus repo ++ "\n")

/-- `ReposRunner.Run` from cmd/repos.go: resolve the owner (authenticated
user if absent), paginate with page size min(100, limit), then truncate,
filter and render via `reposRender`. -/
def reposRun (r : ReposRunner) (opts : ReposOptions) : ReposRunResult :=
  let ownerRes : Except GoErr String :=
    if opts.owner = "" then
      match r.client.getAuthenticatedUser with
      | .error e => .error (.msg ("could not determine user: " ++ e.text ++ "\n\nSpecify an owner:\n  gh subissue repos <owner>"))
      | .ok u => .ok u.login
    else .ok opts.owner
  match ownerRes with
  | .error e => ⟨.error e, [], []⟩
  | .ok owner =>
    let perPage : Int := if opts.limit < 100 then opts.limit else 100
    let fetched := fetchRepoPages r.client owner opts.limit perPage 1 []
    match fetched.1 with
    | .error e => ⟨.error e, [], fetched.2⟩
    | .ok raw => ⟨.ok (), reposRender opts owner raw, fetched.2⟩

/-- Calls that belong to project assignment (AssignProject sub-steps). -/
def isProjectCall : Call → Bool
  | .listProjects _ _ => true
  | .getIssueNodeID _ _ _ => true
  | .addIssueToProject _ _ => true
  | _ => false

/-- Calls that belong to the interactive parent-selection branch. -/
def isParentSelectionCall : Call → Bool
  | .listIssues _ => true
  | .promptSelect pr _ => pr == "Select parent issue"
  | _ => false

/-- The browser-opening collaborator call. -/
def isBrowserCall : Call → Bool
  | .openBrowser _ => true
  | _ => false

/-! Concrete fixtures used by witnesses and counterexamples. -/

/-- A client whose create call succeeds and whose link call fails. -/
def clientLinkFail : APIClient where
  createIssue := fun _ => .ok ⟨12345, 43, "https://github.com/acme/site/issues/43"⟩
  linkSubIssue := fun _ => .error (.msg "link failed")
  getIssue := fun _ _ _ => .error (.msg "unused")
  listIssues := fun _ => .ok []
  listProjects := fun _ _ => .ok []
  getIssueNodeID := fun _ _ _ => .ok "I_node"
  addIssueToProject := fun _ _ => .ok ()

/-- Non-interactive runner over `clientLinkFail` (no browser opener). -/
def runnerC1 : Runner where
  client := clientLinkFail
  owner := "acme"
  repo := "site"
  validateParent := false
  openBrowser := none
  prompter := none
  stdin := none
  fileSystem := fun _ => .error (.msg "no such file")

/-- Create options with an explicit parent and title and a set project. -/
def optsC1 : Options where
  parent := 42
  title := "Fix bug"
  body := ""
  bodyFile := ""
  repo := ""
  assignees := []
  labels := []
  milestone := 0
  web := false
  project := ⟨"Roadmap", true⟩

/-- Runner like `runnerC1` but with a browser opener available. -/
def runnerC2 : Runner where
  client := clientLinkFail
  owner := "acme"
  repo := "site"
  validateParent := false
  openBrowser := some (fun _ => .ok ())
  prompter := none
  stdin := none
  fileSystem := fun _ => .error (.msg "no such file")

/-- Create options with the open-in-browser flag set. -/
def optsC2 : Options where
  parent := 42
  title := "Fix bug"
  body := ""
  bodyFile := ""
  repo := ""
  assignees := []
  labels := []
  milestone := 0
  web := true
  project := ⟨"", false⟩

/-- A client where everything succeeds and one project "Roadmap" exists. -/
def clientProjects : APIClient where
  createIssue := fun _ => .ok ⟨777, 9, "https://github.com/acme/site/issues/9"⟩
  linkSubIssue := fun _ => .ok ()
  getIssue := fun _ _ _ => .error (.msg "unused")
  listIssues := fun _ => .ok []
  listProjects := fun _ _ => .ok [⟨"PVT_1", "Roadmap", 1⟩]
  getIssueNodeID := fun _ _ _ => .ok "I_node"
  addIssueToProject := fun _ _ => .ok ()

/-- Non-interactive runner over `clientProjects`. -/
def runnerC9 : Runner where
  client := clientProjects
  owner := "acme"
  repo := "site"
  validateParent := false
  openBrowser := none
  prompter := none
  stdin := none
  fileSystem := fun _ => .error (.msg "no such file")

/-- Create options with the project option in the set-empty state. -/
def optsC9 : Options where
  parent := 42
  title := "Fix bug"
  body := ""
  bodyFile := ""
  repo := ""
  assignees := []
  labels := []
  milestone := 0
  web := false
  project := ⟨"", true⟩

/-- Create options with no parent given (parent number zero). -/
def optsParent0 : Options where
  parent := 0
  title := "Fix bug"
  body := ""
  bodyFile := ""
  repo := ""
  assignees := []
  labels := []
  milestone := 0
  web := false
  project := ⟨"", false⟩

/-- The long issue title used in the selection-rendering witness. -/
def longTitleC7 : String :=
  "This is a very long title that should be truncated because it exceeds fifty characters"

/-- Issue list for the selection-rendering witness. -/
def issuesC7 : List Issue :=
  [⟨100, 10, longTitleC7, "u1"⟩, ⟨200, 20, "Second issue", "u2"⟩]

/-- Prompter that selects the second option. -/
def prompterC7 : Prompter where
  select := fun _ _ _ => .ok 1
  input := fun _ d => .ok d

/-- Edit client whose project listing fails. -/
def editClientListFail : EditAPIClient where
  listProjects := fun _ _ => .error (.msg "boom")
  getIssueNodeID := fun _ _ _ => .ok "I_node"
  addIssueToProject := fun _ _ => .ok ()

/-- Edit runner over `editClientListFail`. -/
def editRunnerC8 : EditRunner where
  client := editClientListFail
  owner := "acme"
  repo := "site"
  prompter := none

/-- Edit options asking for the project "Roadmap" on issue 43. -/
def editOptsC8 : EditOptions where
  issueNumber := 43
  project := ⟨"Roadmap", true⟩
  repo := ""

/-- A create client that fails at every project-assignment sub-step probe
needed by the C8 witness: node-id lookup fails. -/
def clientNodeFail : APIClient where
  createIssue := fun _ => .ok ⟨777, 9, "https://github.com/acme/site/issues/9"⟩
  linkSubIssue := fun _ => .ok ()
  getIssue := fun _ _ _ => .error (.msg "unused")
  listIssues := fun _ => .ok []
  listProjects := fun _ _ => .ok [⟨"PVT_1", "Roadmap", 1⟩]
  getIssueNodeID := fun _ _ _ => .error (.msg "node boom")
  addIssueToProject := fun _ _ => .ok ()

/-- Non-interactive runner over `clientNodeFail`. -/
def runnerC8 : Runner where
  client := clientNodeFail
  owner := "acme"
  repo := "site"
  validateParent := false
  openBrowser := none
  prompter := none
  stdin := none
  fileSystem := fun _ => .error (.msg "no such file")

/-- Create options naming the project "Roadmap". -/
def optsC8 : Options where
  parent := 42
  title := "Fix bug"
  body := ""
  bodyFile := ""
  repo := ""
  assignees := []
  labels := []
  milestone := 0
  web := false
  project := ⟨"Roadmap", true⟩

/-- One enabled repository fixture. -/
def repoEnabledFix : Repository := ⟨"r", "org/r", true, false⟩

/-- Repos client for the pagination counterexample: 100 rows on page 1,
50 rows on any later page. -/
def reposClientCex : ReposAPIClient where
  listRepositories := fun o =>
    if o.page = 1 then .ok (List.replicate 100 repoEnabledFix)
    else .ok (List.replicate 50 repoEnabledFix)
  getAuthenticatedUser := .ok ⟨"u"⟩

/-- Runner over `reposClientCex`. -/
def reposRunnerCex : ReposRunner := ⟨reposClientCex⟩

/-- Repos options asking for 150 repositories. -/
def reposOptsCex : ReposOptions := ⟨"org", 150, false, false, false⟩

/-- Backing list of five repositories, as in the limit test. -/
def reposFive : List Repository :=
  [⟨"repo1", "org/repo1", true, false⟩, ⟨"repo2", "org/repo2", true, false⟩,
   ⟨"repo3", "org/repo3", true, false⟩, ⟨"repo4", "org/repo4", true, false⟩,
   ⟨"repo5", "org/repo5", true, false⟩]

/-- A well-behaved paging client over a backing list: page n serves the nth
window of perPage rows. -/
def pagedListClient (backing : List Repository) : ReposAPIClient where
  listRepositories := fun o =>
    .ok ((backing.drop (((o.page - 1) * o.perPage).toNat)).take o.perPage.toNat)
  getAuthenticatedUser := .ok ⟨"testuser"⟩

/-- Runner over the five-repository paging client. -/
def reposRunnerFive : ReposRunner := ⟨pagedListClient reposFive⟩

/-- Repos options with limit 3 and no filters. -/
def reposOptsFive : ReposOptions := ⟨"org", 3, false, false, false⟩

/-- Repos client serving one repository of each status. -/
def reposClientMixed : ReposAPIClient where
  listRepositories := fun _ =>
    .ok [⟨"repo1", "org/repo1", true, false⟩, ⟨"repo2", "org/repo2", false, false⟩,
         ⟨"repo3", "org/repo3", true, true⟩]
  getAuthenticatedUser := .ok ⟨"testuser"⟩

/-- Runner over `reposClientMixed`. -/
def reposRunnerMixed : ReposRunner := ⟨reposClientMixed⟩

/-- Repos options with both the enabled and the disabled filter set. -/
def reposOptsBoth : ReposOptions := ⟨"org", 30, true, true, false⟩

/-! Helper lemmas about `splitOnChar`. -/

theorem splitOnChar_ne_nil (sep : Char) (l : List Char) : splitOnChar sep l ≠ [] := by
  induction l with
  | nil => simp [splitOnChar]
  | cons c cs ih =>
    simp only [splitOnChar]
    split
    · simp
    · cases h : splitOnChar sep cs with
      | nil => simp
      | cons p ps => simp

theorem splitOnChar_cons_self (sep : Char) (cs : List Char) :
    splitOnChar sep (sep :: cs) = [] :: splitOnChar sep cs := by
  simp [splitOnChar]

theorem splitOnChar_cons_of_ne {sep c : Char} (cs : List Char) (hc : c ≠ sep)
    {p : List Char} {ps : List (List Char)} (heq : splitOnChar sep cs = p :: ps) :
    splitOnChar sep (c :: cs) = (c :: p) :: ps := by
  simp [splitOnChar, hc, heq]

theorem splitOnChar_length (sep : Char) (l : List Char) :
    (splitOnChar sep l).length = l.count sep + 1 := by
  induction l with
  | nil => simp [splitOnChar]
  | cons c cs ih =>
    by_cases hc : c = sep
    · subst hc
      rw [splitOnChar_cons_self]
      simp only [List.length_cons, ih]
      have : (c :: cs).count c = cs.count c + 1 := by simp
      omega
    · cases heq : splitOnChar sep cs with
      | nil => exact absurd heq (splitOnChar_ne_nil sep cs)
      | cons p ps =>
        rw [splitOnChar_cons_of_ne cs hc heq]
        rw [heq] at ih
        simp only [List.length_cons] at ih ⊢
        have : (c :: cs).count sep = cs.count sep := by
          rw [List.count_cons]
          simp [hc]
        omega

theorem splitOnChar_single_structure (sep : Char) {l b : List Char}
    (h : splitOnChar sep l = [b]) : l = b ∧ sep ∉ b := by
  induction l generalizing b with
  | nil =>
    simp only [splitOnChar, List.cons.injEq] at h
    simp [← h.1]
  | cons c cs ih =>
    by_cases hc : c = sep
    · subst hc
      rw [splitOnChar_cons_self] at h
      simp only [List.cons.injEq] at h
      exact absurd h.2 (splitOnChar_ne_nil c cs)
    · cases heq : splitOnChar sep cs with
      | nil => exact absurd heq (splitOnChar_ne_nil sep cs)
      | cons p ps =>
        rw [splitOnChar_cons_of_ne cs hc heq] at h
        simp only [List.cons.injEq] at h
        obtain ⟨hb, hps⟩ := h
        subst hps
        obtain ⟨hcs, hnotin⟩ := ih heq
        subst hcs
        rw [← hb]
        refine ⟨rfl, ?_⟩
        simp only [List.mem_cons]
        rintro (h1 | h2)
        · exact hc h1.symm
        · exact hnotin h2

theorem splitOnChar_pair_structure (sep : Char) {l a b : List Char}
    (h : splitOnChar sep l = [a, b]) : l = a ++ sep :: b ∧ sep ∉ a ∧ sep ∉ b := by
  induction l generalizing a with
  | nil => simp [splitOnChar] at h
  | cons c cs ih =>
    by_cases hc : c = sep
    · subst hc
      rw [splitOnChar_cons_self] at h
      simp only [List.cons.injEq] at h
      obtain ⟨ha, hs⟩ := h
      obtain ⟨hcs, hnb⟩ := splitOnChar_single_structure c hs
      subst hcs
      simp [← ha, hnb]
    · cases heq : splitOnChar sep cs with
      | nil => exact absurd heq (splitOnChar_ne_nil sep cs)
      | cons p ps =>
        rw [splitOnChar_cons_of_ne cs hc heq] at h
        simp only [List.cons.injEq] at h
        obtain ⟨ha, hps⟩ := h
        have hcs2 : splitOnChar sep cs = [p, b] := by rw [heq, hps]
        obtain ⟨hstruct, hna, hnb⟩ := ih hcs2
        subst hstruct
        refine ⟨by simp [← ha], ?_, hnb⟩
        rw [← ha]
        simp only [List.mem_cons]
        rintro (h1 | h2)
        · exact hc h1.symm
        · exact hna h2

/-! Shape lemmas for the call traces of the create-workflow phases. -/

theorem resolveParent_of_ne (r : Runner) {p : Int} (hp : p ≠ 0) :
    resolveParent r p = (.ok p, []) := by
  simp [resolveParent, hp]

theorem mem_selectParentIssue_calls (p : Prompter) (issues : List Issue) :
    ∀ c ∈ (selectParentIssue p issues).2, ∃ os, c = .promptSelect "Select parent issue" os := by
  intro c hc
  simp only [selectParentIssue] at hc
  split at hc
  · simp at hc
  · split at hc
    · simp at hc
      exact ⟨_, hc⟩
    · split at hc <;> (simp at hc; exact ⟨_, hc⟩)

theorem mem_selectProject_calls (p : Prompter) (projects : List Project) :
    ∀ c ∈ (selectProject p projects).2, ∃ os, c = .promptSelect "Select project" os := by
  intro c hc
  simp only [selectProject] at hc
  split at hc
  · simp at hc
  · split at hc
    · simp at hc
      exact ⟨_, hc⟩
    · split at hc <;> (simp at hc; exact ⟨_, hc⟩)

theorem mem_resolveParent_calls (r : Runner) (p : Int) :
    ∀ c ∈ (resolveParent r p).2,
      (∃ o, c = .listIssues o) ∨ (∃ os, c = .promptSelect "Select parent issue" os) := by
  intro c hc
  simp only [resolveParent] at hc
  split at hc
  · split at hc
    · simp at hc
    · split at hc
      · simp at hc
        exact .inl ⟨_, hc⟩
      · simp only [List.mem_cons] at hc
        rcases hc with h | h
        · exact .inl ⟨_, h⟩
        · exact .inr (mem_selectParentIssue_calls _ _ c h)
  · simp at hc

theorem mem_resolveTitle_calls (r : Runner) (t : String) :
    ∀ c ∈ (resolveTitle r t).2, ∃ pr dv, c = .promptInput pr dv := by
  intro c hc
  simp only [resolveTitle] at hc
  split at hc
  · split at hc
    · simp at hc
    · split at hc
      · simp at hc
        exact ⟨_, _, hc⟩
      · split at hc <;> (simp at hc; exact ⟨_, _, hc⟩)
  · simp at hc

theorem mem_readBody_calls (r : Runner) (path : String) :
    ∀ c ∈ (readBody r path).2, c = .readStdin ∨ ∃ pth, c = .readFile pth := by
  intro c hc
  simp only [readBody] at hc
  split at hc
  · split at hc
    · simp at hc
    · split at hc <;> (simp at hc; exact .inl hc)
  · split at hc <;> (simp at hc; exact .inr ⟨_, hc⟩)

theorem mem_resolveBody_calls (r : Runner) (body bodyFile : String) :
    ∀ c ∈ (resolveBody r body bodyFile).2, c = .readStdin ∨ ∃ pth, c = .readFile pth := by
  intro c hc
  simp only [resolveBody] at hc
  split at hc
  · exact mem_readBody_calls r bodyFile c hc
  · simp at hc

theorem mem_validateParentStep_calls (r : Runner) (p : Int) :
    ∀ c ∈ (validateParentStep r p).2, ∃ a b n, c = .getIssue a b n := by
  intro c hc
  simp only [validateParentStep] at hc
  split at hc
  · split at hc <;> (simp at hc; exact ⟨_, _, _, hc⟩)
  · simp at hc

theorem mem_finishAddToProject_calls (r : Runner) (res : IssueResult) (proj : Project) (calls : List Call) :
    ∀ c ∈ (finishAddToProject r res proj calls).2,
      c ∈ calls ∨ (∃ a b n, c = .getIssueNodeID a b n) ∨ (∃ a b, c = .addIssueToProject a b) := by
  intro c hc
  simp only [finishAddToProject] at hc
  split at hc
  · simp only [List.mem_append, List.mem_singleton] at hc
    rcases hc with h | h
    · exact .inl h
    · exact .inr (.inl ⟨_, _, _, h⟩)
  · split at hc <;>
      (simp only [List.mem_append, List.mem_cons, List.not_mem_nil, or_false] at hc;
       rcases hc with h | h | h)
    · exact .inl h
    · exact .inr (.inl ⟨_, _, _, h⟩)
    · exact .inr (.inr ⟨_, _, h⟩)
    · exact .inl h
    · exact .inr (.inl ⟨_, _, _, h⟩)
    · exact .inr (.inr ⟨_, _, h⟩)

theorem mem_addToProject_calls (r : Runner) (opts : Options) (res : IssueResult) :
    ∀ c ∈ (addToProject r opts res).2,
      (∃ a b, c = .listProjects a b) ∨ (∃ os, c = .promptSelect "Select project" os) ∨
      (∃ a b n, c = .getIssueNodeID a b n) ∨ (∃ a b, c = .addIssueToProject a b) := by
  intro c hc
  simp only [addToProject] at hc
  split at hc
  · simp at hc
    exact .inl ⟨_, _, hc⟩
  · split at hc
    · split at hc
      · simp at hc
        exact .inl ⟨_, _, hc⟩
      · split at hc
        · simp at hc
          exact .inl ⟨_, _, hc⟩
        · split at hc
          · simp only [List.mem_cons] at hc
            rcases hc with h | h
            · exact .inl ⟨_, _, h⟩
            · exact .inr (.inl (mem_selectProject_calls _ _ c h))
          · rcases mem_finishAddToProject_calls r res _ _ c hc with h | h | h
            · simp only [List.mem_cons] at h
              rcases h with h | h
              · exact .inl ⟨_, _, h⟩
              · exact .inr (.inl (mem_selectProject_calls _ _ c h))
            · exact .inr (.inr (.inl h))
            · exact .inr (.inr (.inr h))
    · split at hc
      · simp at hc
        exact .inl ⟨_, _, hc⟩
      · rcases mem_finishAddToProject_calls r res _ _ c hc with h | h | h
        · simp at h
          exact .inl ⟨_, _, h⟩
        · exact .inr (.inr (.inl h))
        · exact .inr (.inr (.inr h))

theorem mem_reportPhase_calls (r : Runner) (web : Bool) (url : String) :
    ∀ c ∈ (reportPhase r web url).2, ∃ u, c = .openBrowser u := by
  intro c hc
  simp only [reportPhase] at hc
  split at hc
  · split at hc <;> (simp at hc; exact ⟨_, hc⟩)
  · simp at hc

/-! Unfolding lemmas for `Runner.run`. -/

theorem run_eq_of_link_error (r : Runner) (opts : Options) {p : Int} {t bd : String}
    {cs1 cs2 cs3 cs4 : List Call} {res : IssueResult} {e : GoErr}
    (hp : resolveParent r opts.parent = (.ok p, cs1))
    (ht : resolveTitle r opts.title = (.ok t, cs2))
    (hb : resolveBody r opts.body opts.bodyFile = (.ok bd, cs3))
    (hv : validateParentStep r p = (.ok (), cs4))
    (hcr : r.client.createIssue ⟨r.owner, r.repo, t, bd, opts.labels, opts.assignees, opts.milestone⟩ = .ok res)
    (hl : r.client.linkSubIssue ⟨r.owner, r.repo, p, res.id⟩ = .error e) :
    r.run opts = ⟨.ok (), linkFailWrites r p res e,
      cs1 ++ cs2 ++ cs3 ++ cs4 ++
        [.createIssue ⟨r.owner, r.repo, t, bd, opts.labels, opts.assignees, opts.milestone⟩,
         .linkSubIssue ⟨r.owner, r.repo, p, res.id⟩]⟩ := by
  unfold Runner.run
  simp only [hp, ht, hb, hv, hcr, hl]

theorem run_eq_of_link_ok (r : Runner) (opts : Options) {p : Int} {t bd : String}
    {cs1 cs2 cs3 cs4 : List Call} {res : IssueResult}
    (hp : resolveParent r opts.parent = (.ok p, cs1))
    (ht : resolveTitle r opts.title = (.ok t, cs2))
    (hb : resolveBody r opts.body opts.bodyFile = (.ok bd, cs3))
    (hv : validateParentStep r p = (.ok (), cs4))
    (hcr : r.client.createIssue ⟨r.owner, r.repo, t, bd, opts.labels, opts.assignees, opts.milestone⟩ = .ok res)
    (hl : r.client.linkSubIssue ⟨r.owner, r.repo, p, res.id⟩ = .ok ()) :
    r.run opts = ⟨.ok (),
      (if opts.project.wasSet then addToProject r opts res else ([], [])).1 ++
        (reportPhase r opts.web res.url).1,
      cs1 ++ cs2 ++ cs3 ++ cs4 ++
        [.createIssue ⟨r.owner, r.repo, t, bd, opts.labels, opts.assignees, opts.milestone⟩,
         .linkSubIssue ⟨r.owner, r.repo, p, res.id⟩] ++
        (if opts.project.wasSet then addToProject r opts res else ([], [])).2 ++
        (reportPhase r opts.web res.url).2⟩ := by
  unfold Runner.run
  simp only [hp, ht, hb, hv, hcr, hl]

theorem strData_append (a b : String) : (a ++ b).data = a.data ++ b.data := rfl

theorem run_calls_parent_or_benign (r : Runner) (opts : Options) :
    ∀ c ∈ (r.run opts).calls,
      c ∈ (resolveParent r opts.parent).2 ∨ isParentSelectionCall c = false := by
  have benignT : ∀ x ∈ (resolveTitle r opts.title).2, isParentSelectionCall x = false := by
    intro x hx
    rcases mem_resolveTitle_calls r opts.title x hx with ⟨pr, dv, rfl⟩
    rfl
  have benignB : ∀ x ∈ (resolveBody r opts.body opts.bodyFile).2, isParentSelectionCall x = false := by
    intro x hx
    rcases mem_resolveBody_calls r opts.body opts.bodyFile x hx with rfl | ⟨pth, rfl⟩ <;> rfl
  have benignV : ∀ p2, ∀ x ∈ (validateParentStep r p2).2, isParentSelectionCall x = false := by
    intro p2 x hx
    rcases mem_validateParentStep_calls r p2 x hx with ⟨a, b, n, rfl⟩
    rfl
  have benignA : ∀ res, ∀ x ∈ (addToProject r opts res).2, isParentSelectionCall x = false := by
    intro res x hx
    rcases mem_addToProject_calls r opts res x hx with ⟨a, b, rfl⟩ | ⟨os, rfl⟩ | ⟨a, b, n, rfl⟩ | ⟨a, b, rfl⟩
    · rfl
    · show (("Select project" : String) == "Select parent issue") = false
      decide
    · rfl
    · rfl
  have benignR : ∀ web url, ∀ x ∈ (reportPhase r web url).2, isParentSelectionCall x = false := by
    intro web url x hx
    rcases mem_reportPhase_calls r web url x hx with ⟨u, rfl⟩
    rfl
  intro c hc
  unfold Runner.run at hc
  rcases hP : resolveParent r opts.parent with ⟨pres, cs1⟩
  rw [hP] at hc
  cases pres with
  | error e =>
    simp only at hc
    exact .inl hc
  | ok parent =>
    simp only at hc
    rcases hT : resolveTitle r opts.title with ⟨tres, cs2⟩
    rw [hT] at hc
    have hcs2 : ∀ x ∈ cs2, isParentSelectionCall x = false := by
      intro x hx
      exact benignT x (by rw [hT]; exact hx)
    cases tres with
    | error e =>
      simp only [List.mem_append] at hc
      rcases hc with h | h
      · exact .inl h
      · exact .inr (hcs2 c h)
    | ok t =>
      simp only at hc
      rcases hB : resolveBody r opts.body opts.bodyFile with ⟨bres, cs3⟩
      rw [hB] at hc
      have hcs3 : ∀ x ∈ cs3, isParentSelectionCall x = false := by
        intro x hx
        exact benignB x (by rw [hB]; exact hx)
      cases bres with
      | error e =>
        simp only [List.mem_append] at hc
        rcases hc with (h | h) | h
        · exact .inl h
        · exact .inr (hcs2 c h)
        · exact .inr (hcs3 c h)
      | ok bd =>
        simp only at hc
        rcases hV : validateParentStep r parent with ⟨vres, cs4⟩
        rw [hV] at hc
        have hcs4 : ∀ x ∈ cs4, isParentSelectionCall x = false := by
          intro x hx
          exact benignV parent x (by rw [hV]; exact hx)
        cases vres with
        | error e =>
          simp only [List.mem_append] at hc
          rcases hc with ((h | h) | h) | h
          · exact .inl h
          · exact .inr (hcs2 c h)
          · exact .inr (hcs3 c h)
          · exact .inr (hcs4 c h)
        | ok u =>
          simp only at hc
          rcases hCr : r.client.createIssue ⟨r.owner, r.repo, t, bd, opts.labels, opts.assignees, opts.milestone⟩ with e | res
          · rw [hCr] at hc
            simp only [List.mem_append, List.mem_singleton] at hc
            rcases hc with (((h | h) | h) | h) | h
            · exact .inl h
            · exact .inr (hcs2 c h)
            · exact .inr (hcs3 c h)
            · exact .inr (hcs4 c h)
            · subst h
              exact .inr rfl
          · rw [hCr] at hc
            simp only at hc
            rcases hL : r.client.linkSubIssue ⟨r.owner, r.repo, parent, res.id⟩ with e | u2
            · rw [hL] at hc
              simp only [List.mem_append, List.mem_cons, List.not_mem_nil, or_false] at hc
              rcases hc with (((h | h) | h) | h) | h | h
              · exact .inl h
              · exact .inr (hcs2 c h)
              · exact .inr (hcs3 c h)
              · exact .inr (hcs4 c h)
              · subst h
                exact .inr rfl
              · subst h
                exact .inr rfl
            · rw [hL] at hc
              simp only [List.mem_append, List.mem_cons, List.not_mem_nil, or_false] at hc
              rcases hc with ((((((h | h) | h) | h) | h | h) | h) | h)
              · exact .inl h
              · exact .inr (hcs2 c h)
              · exact .inr (hcs3 c h)
              · exact .inr (hcs4 c h)
              · subst h
                exact .inr rfl
              · subst h
                exact .inr rfl
              · by_cases hws : opts.project.wasSet
                · rw [if_pos hws] at h
                  exact .inr (benignA res c h)
                · rw [if_neg hws] at h
                  simp at h
              · exact .inr (benignR opts.web res.url c h)

theorem linkCmd_segment :
    ("/sub_issues -f sub_issue_id=" : String).data =
      ("/sub_issues -f " : String).data ++ ("sub_issue_id=" : String).data := by decide

theorem sub_issue_id_infix (r : Runner) (p : Int) (res : IssueResult) (e : GoErr) :
    ("sub_issue_id=" ++ toString res.id).data <:+:
      ("  gh api repos/" ++ r.owner ++ "/" ++ r.repo ++ "/issues/" ++ toString p ++
        "/sub_issues -f sub_issue_id=" ++ toString res.id ++ "\n").data := by
  refine ⟨("  gh api repos/" ++ r.owner ++ "/" ++ r.repo ++ "/issues/" ++ toString p ++
    "/sub_issues -f ").data, ("\n" : String).data, ?_⟩
  simp only [strData_append, List.append_assoc, linkCmd_segment]
  rfl

/-! Theorems for claim C4 (ParseRepo). -/

/-- C4 counterexample: the claim says strings with an empty side such as
"/repo" are rejected with a format error, but `ParseRepo` splits on "/" and
only checks that there are exactly two parts, so "/repo" parses
successfully with an empty owner. -/
theorem parseRepo_empty_owner_accepted :
    parseRepo "/repo" = .ok ("", "repo") := by decide

/-- C4 (amended): parsing an explicit repository string succeeds exactly
when the string contains exactly one "/" (either side may be empty; in
particular "/repo" and "owner/" are accepted); on success it returns
exactly the part before and the part after the slash. -/
theorem parseRepo_spec :
    (∀ s : String, (parseRepo s).isOk = true ↔ s.data.count '/' = 1) ∧
    (∀ s o r, parseRepo s = .ok (o, r) →
      s.data = o.data ++ '/' :: r.data ∧ '/' ∉ o.data ∧ '/' ∉ r.data) := by
  constructor
  · intro s
    by_cases hs : s = ""
    · subst hs
      constructor
      · intro h
        simp [parseRepo, Except.isOk, Except.toBool] at h
      · intro h
        simp at h
    · simp only [parseRepo, if_neg hs]
      have hlen := splitOnChar_length '/' s.data
      cases hsp : splitOnChar '/' s.data with
      | nil => exact absurd hsp (splitOnChar_ne_nil '/' s.data)
      | cons x t =>
        cases t with
        | nil =>
          rw [hsp] at hlen
          simp only [List.length_cons, List.length_nil] at hlen
          constructor
          · intro h
            simp [Except.isOk, Except.toBool] at h
          · intro h
            omega
        | cons y t2 =>
          cases t2 with
          | nil =>
            rw [hsp] at hlen
            simp only [List.length_cons, List.length_nil] at hlen
            constructor
            · intro _
              omega
            · intro _
              simp [Except.isOk, Except.toBool]
          | cons z t3 =>
            rw [hsp] at hlen
            simp only [List.length_cons] at hlen
            constructor
            · intro h
              simp [Except.isOk, Except.toBool] at h
            · intro h
              omega
  · intro s o r h
    by_cases hs : s = ""
    · subst hs
      simp [parseRepo] at h
    · simp only [parseRepo, if_neg hs] at h
      cases hsp : splitOnChar '/' s.data with
      | nil => exact absurd hsp (splitOnChar_ne_nil '/' s.data)
      | cons x t =>
        rw [hsp] at h
        cases t with
        | nil => simp at h
        | cons y t2 =>
          cases t2 with
          | nil =>
            simp only [Except.ok.injEq, Prod.mk.injEq] at h
            obtain ⟨ho, hr⟩ := h
            have := splitOnChar_pair_structure '/' hsp
            rw [← ho, ← hr]
            exact this
          | cons z t3 => simp at h

/-- Witness for C4: "a/b" has exactly one slash and parses to ("a", "b"),
whose concatenation with "/" reconstitutes the input. -/
theorem parseRepo_spec_witness :
    parseRepo "a/b" = .ok ("a", "b") ∧
      ("a/b".data = "a".data ++ '/' :: "b".data ∧ '/' ∉ "a".data ∧ '/' ∉ "b".data) :=
  ⟨by decide, parseRepo_spec.2 "a/b" "a" "b" (by decide)⟩

/-! Theorems for claims C1, C2 and C3 (create workflow). -/

/-- C1: in the create workflow, whenever the create-issue call succeeds and
the subsequent link-sub-issue call fails, the run returns success (no
error), writes a warning block to the output that contains the created
issue's URL and a literal manual-linking command containing
"sub_issue_id=" followed by the created issue's internal id, and makes no
project-assignment call even when the project option was set. -/
theorem create_link_failure_policy (r : Runner) (opts : Options) (p : Int) (t bd : String)
    (cs1 cs2 cs3 cs4 : List Call) (res : IssueResult) (e : GoErr)
    (hp : resolveParent r opts.parent = (.ok p, cs1))
    (ht : resolveTitle r opts.title = (.ok t, cs2))
    (hb : resolveBody r opts.body opts.bodyFile = (.ok bd, cs3))
    (hv : validateParentStep r p = (.ok (), cs4))
    (hcr : r.client.createIssue ⟨r.owner, r.repo, t, bd, opts.labels, opts.assignees, opts.milestone⟩ = .ok res)
    (hl : r.client.linkSubIssue ⟨r.owner, r.repo, p, res.id⟩ = .error e) :
    (r.run opts).result = .ok () ∧
    ("Issue URL: " ++ res.url ++ "\n") ∈ (r.run opts).writes ∧
    (∃ w ∈ (r.run opts).writes, ("sub_issue_id=" ++ toString res.id).data <:+: w.data) ∧
    (∀ c ∈ (r.run opts).calls, isProjectCall c = false) := by
  rw [run_eq_of_link_error r opts hp ht hb hv hcr hl]
  refine ⟨rfl, ?_, ?_, ?_⟩
  · simp [linkFailWrites]
  · refine ⟨_, ?_, sub_issue_id_infix r p res e⟩
    simp [linkFailWrites]
  · intro c hc
    simp only [List.mem_append, List.mem_cons, List.not_mem_nil, or_false] at hc
    rcases hc with (((h | h) | h) | h) | h | h
    · rcases mem_resolveParent_calls r opts.parent c (by rw [hp]; exact h) with ⟨o, rfl⟩ | ⟨os, rfl⟩ <;> rfl
    · rcases mem_resolveTitle_calls r opts.title c (by rw [ht]; exact h) with ⟨pr, dv, rfl⟩
      rfl
    · rcases mem_resolveBody_calls r opts.body opts.bodyFile c (by rw [hb]; exact h) with rfl | ⟨pth, rfl⟩ <;> rfl
    · rcases mem_validateParentStep_calls r p c (by rw [hv]; exact h) with ⟨a, b, n, rfl⟩
      rfl
    · subst h
      rfl
    · subst h
      rfl

/-- Witness for C1: the concrete non-interactive runner whose create call
returns id 12345 and whose link call fails. -/
theorem create_link_failure_policy_witness :
    (runnerC1.run optsC1).result = .ok () ∧
    ("Issue URL: " ++ "https://github.com/acme/site/issues/43" ++ "\n") ∈ (runnerC1.run optsC1).writes ∧
    (∃ w ∈ (runnerC1.run optsC1).writes, ("sub_issue_id=" ++ toString (12345 : Int)).data <:+: w.data) ∧
    (∀ c ∈ (runnerC1.run optsC1).calls, isProjectCall c = false) := by
  have hp : resolveParent runnerC1 optsC1.parent = (.ok 42, ([] : List Call)) := by decide
  have ht : resolveTitle runnerC1 optsC1.title = (.ok "Fix bug", ([] : List Call)) := by decide
  have hb : resolveBody runnerC1 optsC1.body optsC1.bodyFile = (.ok "", ([] : List Call)) := by decide
  have hv : validateParentStep runnerC1 42 = (.ok (), ([] : List Call)) := by decide
  have hcr : runnerC1.client.createIssue ⟨runnerC1.owner, runnerC1.repo, "Fix bug", "", optsC1.labels, optsC1.assignees, optsC1.milestone⟩ = .ok ⟨12345, 43, "https://github.com/acme/site/issues/43"⟩ := by decide
  have hl : runnerC1.client.linkSubIssue ⟨runnerC1.owner, runnerC1.repo, 42, (12345 : Int)⟩ = .error (.msg "link failed") := by decide
  exact create_link_failure_policy runnerC1 optsC1 42 "Fix bug" "" [] [] [] []
    ⟨12345, 43, "https://github.com/acme/site/issues/43"⟩ (.msg "link failed") hp ht hb hv hcr hl

/-- C2 counterexample: with the open-in-browser flag set and a browser
opener available, a run whose link call fails returns success but never
invokes the browser-opening collaborator, contradicting the claim that the
Report step still executes after a failed link. -/
theorem create_link_failure_no_browser_cex :
    optsC2.web = true ∧ runnerC2.openBrowser.isSome = true ∧
    runnerC2.client.linkSubIssue ⟨"acme", "site", 42, 12345⟩ = .error (.msg "link failed") ∧
    (runnerC2.run optsC2).result = .ok () ∧
    (∀ c ∈ (runnerC2.run optsC2).calls, isBrowserCall c = false) := by
  refine ⟨rfl, rfl, by decide, by decide, by decide⟩

/-- C2 (amended): after a failed link-sub-issue call the workflow does
print the created issue's URL (inside the warning block) but then returns
immediately: the Report step is skipped, so the browser-opening
collaborator is never invoked even when the open-in-browser flag was set,
and the output is exactly the four-line warning block. -/
theorem create_link_failure_skips_report (r : Runner) (opts : Options) (p : Int) (t bd : String)
    (cs1 cs2 cs3 cs4 : List Call) (res : IssueResult) (e : GoErr)
    (hp : resolveParent r opts.parent = (.ok p, cs1))
    (ht : resolveTitle r opts.title = (.ok t, cs2))
    (hb : resolveBody r opts.body opts.bodyFile = (.ok bd, cs3))
    (hv : validateParentStep r p = (.ok (), cs4))
    (hcr : r.client.createIssue ⟨r.owner, r.repo, t, bd, opts.labels, opts.assignees, opts.milestone⟩ = .ok res)
    (hl : r.client.linkSubIssue ⟨r.owner, r.repo, p, res.id⟩ = .error e) :
    (r.run opts).result = .ok () ∧
    ("Issue URL: " ++ res.url ++ "\n") ∈ (r.run opts).writes ∧
    (r.run opts).writes = linkFailWrites r p res e ∧
    (∀ c ∈ (r.run opts).calls, isBrowserCall c = false) := by
  rw [run_eq_of_link_error r opts hp ht hb hv hcr hl]
  refine ⟨rfl, ?_, rfl, ?_⟩
  · simp [linkFailWrites]
  · intro c hc
    simp only [List.mem_append, List.mem_cons, List.not_mem_nil, or_false] at hc
    rcases hc with (((h | h) | h) | h) | h | h
    · rcases mem_resolveParent_calls r opts.parent c (by rw [hp]; exact h) with ⟨o, rfl⟩ | ⟨os, rfl⟩ <;> rfl
    · rcases mem_resolveTitle_calls r opts.title c (by rw [ht]; exact h) with ⟨pr, dv, rfl⟩
      rfl
    · rcases mem_resolveBody_calls r opts.body opts.bodyFile c (by rw [hb]; exact h) with rfl | ⟨pth, rfl⟩ <;> rfl
    · rcases mem_validateParentStep_calls r p c (by rw [hv]; exact h) with ⟨a, b, n, rfl⟩
      rfl
    · subst h
      rfl
    · subst h
      rfl

/-- Witness for C2 (amended) at the concrete runner with a browser opener
and the open-in-browser flag set. -/
theorem create_link_failure_skips_report_witness :
    (runnerC2.run optsC2).result = .ok () ∧
    ("Issue URL: " ++ "https://github.com/acme/site/issues/43" ++ "\n") ∈ (runnerC2.run optsC2).writes ∧
    (runnerC2.run optsC2).writes =
      linkFailWrites runnerC2 42 ⟨12345, 43, "https://github.com/acme/site/issues/43"⟩ (.msg "link failed") ∧
    (∀ c ∈ (runnerC2.run optsC2).calls, isBrowserCall c = false) := by
  have hp : resolveParent runnerC2 optsC2.parent = (.ok 42, ([] : List Call)) := by decide
  have ht : resolveTitle runnerC2 optsC2.title = (.ok "Fix bug", ([] : List Call)) := by decide
  have hb : resolveBody runnerC2 optsC2.body optsC2.bodyFile = (.ok "", ([] : List Call)) := by decide
  have hv : validateParentStep runnerC2 42 = (.ok (), ([] : List Call)) := by decide
  have hcr : runnerC2.client.createIssue ⟨runnerC2.owner, runnerC2.repo, "Fix bug", "", optsC2.labels, optsC2.assignees, optsC2.milestone⟩ = .ok ⟨12345, 43, "https://github.com/acme/site/issues/43"⟩ := by decide
  have hl : runnerC2.client.linkSubIssue ⟨runnerC2.owner, runnerC2.repo, 42, (12345 : Int)⟩ = .error (.msg "link failed") := by decide
  exact create_link_failure_skips_report runnerC2 optsC2 42 "Fix bug" "" [] [] [] []
    ⟨12345, 43, "https://github.com/acme/site/issues/43"⟩ (.msg "link failed") hp ht hb hv hcr hl

/-- C3: with parent number 0 and no prompter, the create workflow fails
before any collaborator call with an error whose text contains both
"--parent" and "not running interactively"; when the parent number is
non-zero, the interactive parent-selection branch (issue listing and parent
selection prompt) is never entered. -/
theorem create_parent_required_spec :
    (∀ (r : Runner) (opts : Options), opts.parent = 0 → r.prompter = none →
      (r.run opts).result = .error (.msg parentRequiredMsg) ∧
      (r.run opts).writes = [] ∧ (r.run opts).calls = []) ∧
    ("--parent".data <:+: parentRequiredMsg.data) ∧
    ("not running interactively".data <:+: parentRequiredMsg.data) ∧
    (∀ (r : Runner) (opts : Options), opts.parent ≠ 0 →
      ∀ c ∈ (r.run opts).calls, isParentSelectionCall c = false) := by
  refine ⟨?_, by decide, by decide, ?_⟩
  · intro r opts h0 hpr
    have hrp : resolveParent r opts.parent = (.error (.msg parentRequiredMsg), []) := by
      rw [h0]
      simp [resolveParent, hpr]
    unfold Runner.run
    simp [hrp]
  · intro r opts hne c hc
    rcases run_calls_parent_or_benign r opts c hc with h | h
    · rw [resolveParent_of_ne r hne] at h
      simp at h
    · exact h

/-- Witness for C3: a concrete non-interactive run with parent 0 fails with
the required message and no calls, and a concrete run with parent 42 makes
no parent-selection call. -/
theorem create_parent_required_spec_witness :
    ((runnerC1.run optsParent0).result = .error (.msg parentRequiredMsg) ∧
      (runnerC1.run optsParent0).writes = [] ∧ (runnerC1.run optsParent0).calls = []) ∧
    (∀ c ∈ (runnerC1.run optsC1).calls, isParentSelectionCall c = false) :=
  ⟨create_parent_required_spec.1 runnerC1 optsParent0 rfl rfl,
   create_parent_required_spec.2.2.2 runnerC1 optsC1 (by decide)⟩

/-! Theorems for claim C7 (selection rendering). -/

/-- C7: an issue title longer than 50 characters is rendered in selection
options as exactly its first 47 characters followed by "..." and shorter
titles are rendered in full; each option has the form "#<number> <title>";
and the selection result adopts the issue number at the chosen index of the
input list. -/
theorem selectParentIssue_rendering :
    (∀ t : String, 50 < t.data.length → truncateTitle t = String.mk (t.data.take 47) ++ "...") ∧
    (∀ t : String, t.data.length ≤ 50 → truncateTitle t = t) ∧
    (∀ (p : Prompter) (issues : List Issue), issues ≠ [] →
      (selectParentIssue p issues).2 =
        [.promptSelect "Select parent issue"
          (issues.map (fun i => "#" ++ toString i.number ++ " " ++ truncateTitle i.title))]) ∧
    (∀ (p : Prompter) (issues : List Issue) (idx : Int) (h0 : 0 ≤ idx)
      (h : idx.toNat < issues.length),
      p.select "Select parent issue" "" (issues.map issueOption) = .ok idx →
      (selectParentIssue p issues).1 = .ok (issues.get ⟨idx.toNat, h⟩).number) := by
  refine ⟨?_, ?_, ?_, ?_⟩
  · intro t h
    rw [truncateTitle, if_pos h]
  · intro t h
    rw [truncateTitle, if_neg (by omega)]
  · intro p issues hne
    have hlen : ¬(issues.length = 0) := by
      simp [List.length_eq_zero]
      exact hne
    simp only [selectParentIssue, if_neg hlen]
    split
    · rfl
    · split
      · rfl
      · rfl
  · intro p issues idx h0 h hsel
    have hlen : ¬(issues.length = 0) := by omega
    simp only [selectParentIssue, if_neg hlen, hsel]
    rw [dif_pos ⟨h0, h⟩]

/-- Witness for C7: the long title from the selection test is truncated to
47 characters plus "...", the options are rendered from the issue list, and
selecting index 1 adopts issue number 20. -/
theorem selectParentIssue_rendering_witness :
    truncateTitle longTitleC7 = String.mk (longTitleC7.data.take 47) ++ "..." ∧
    truncateTitle "Second issue" = "Second issue" ∧
    (selectParentIssue prompterC7 issuesC7).2 =
      [.promptSelect "Select parent issue"
        (issuesC7.map (fun i => "#" ++ toString i.number ++ " " ++ truncateTitle i.title))] ∧
    (selectParentIssue prompterC7 issuesC7).1 = .ok 20 := by
  refine ⟨selectParentIssue_rendering.1 longTitleC7 (by decide),
          selectParentIssue_rendering.2.1 "Second issue" (by decide),
          selectParentIssue_rendering.2.2.1 prompterC7 issuesC7 (by decide), ?_⟩
  exact selectParentIssue_rendering.2.2.2 prompterC7 issuesC7 1 (by decide) (by decide) (by decide)

/-! Theorems for claim C10 (edit flag parsing). -/

/-- C10: edit flag parsing requires the issue number to be the very first
argument: an empty argument list fails with an issue-number-required error,
a first argument that is not a decimal integer fails with an
invalid-issue-number error even when a valid number appears later among the
arguments, and the flag set is parsed only over the arguments after the
first one. -/
theorem parseEditFlags_first_arg :
    (parseEditFlags [] = .error (.msg "issue number is required")) ∧
    (∀ (a : String) (rest : List String), goAtoi a = none →
      parseEditFlags (a :: rest) = .error (.msg ("invalid issue number: " ++ a))) ∧
    (parseEditFlags ["--project", "Roadmap", "43"] = .error (.msg "invalid issue number: --project")) ∧
    (∀ (a : String) (n : Int) (rest : List String), goAtoi a = some n →
      parseEditFlags (a :: rest) =
        editFlagLoop rest { issueNumber := n, project := ⟨"", false⟩, repo := "" }) := by
  refine ⟨rfl, ?_, by decide, ?_⟩
  · intro a rest h
    simp [parseEditFlags, h]
  · intro a n rest h
    cases rest with
    | nil =>
      simp [parseEditFlags, h]
      rfl
    | cons b bs => simp [parseEditFlags, h]

/-- Witness for C10: "43" parses as the issue number and the flags come
from the remaining arguments; a later "43" does not rescue a flag-first
argument list. -/
theorem parseEditFlags_first_arg_witness :
    parseEditFlags ["43", "--project", "Roadmap"] =
      editFlagLoop ["--project", "Roadmap"] { issueNumber := 43, project := ⟨"", false⟩, repo := "" } ∧
    parseEditFlags ["43", "--project", "Roadmap"] =
      .ok { issueNumber := 43, project := ⟨"Roadmap", true⟩, repo := "" } ∧
    parseEditFlags ["--repo", "o/r", "43"] = .error (.msg "invalid issue number: --repo") :=
  ⟨parseEditFlags_first_arg.2.2.2 "43" 43 ["--project", "Roadmap"] (by decide),
   by decide,
   parseEditFlags_first_arg.2.1 "--repo" ["o/r", "43"] (by decide)⟩

/-! Theorems for claims C8 and C9 (project assignment failure policy). -/

/-- C8 counterexample: in the edit workflow a failing project listing is
fatal — the run returns an error rather than succeeding with a warning,
contradicting the claim that create and edit alike return success. -/
theorem edit_project_failure_fatal_cex :
    editOptsC8.project.wasSet = true ∧
    (editRun editRunnerC8 editOptsC8).result = .error (.msg "failed to list projects: boom") ∧
    (editRun editRunnerC8 editOptsC8).writes = [] :=
  ⟨rfl, by decide, by decide⟩

/-- C8 (amended): classified API errors are fatal for the create, validate
and fetch steps; in the CREATE workflow, link-after-create and every
project-assignment sub-step failure (listing projects, matching a project
by title, fetching the issue node id, submitting the mutation) is a
non-fatal warning naming the cause, with the run still succeeding; in the
EDIT workflow the same project-assignment failures are fatal errors. -/
theorem project_failures_fatality :
    (∀ (r : Runner) (opts : Options) (p : Int) (t bd : String) (cs1 cs2 cs3 cs4 : List Call)
      (res : IssueResult),
      resolveParent r opts.parent = (.ok p, cs1) →
      resolveTitle r opts.title = (.ok t, cs2) →
      resolveBody r opts.body opts.bodyFile = (.ok bd, cs3) →
      validateParentStep r p = (.ok (), cs4) →
      r.client.createIssue ⟨r.owner, r.repo, t, bd, opts.labels, opts.assignees, opts.milestone⟩ = .ok res →
      r.client.linkSubIssue ⟨r.owner, r.repo, p, res.id⟩ = .ok () →
      ((r.run opts).result = .ok () ∧
       (∀ e, opts.project.wasSet = true →
         r.client.listProjects r.owner r.repo = .error e →
         ("Warning: failed to list projects: " ++ e.text ++ "\n") ∈ (r.run opts).writes) ∧
       (∀ ps, opts.project.wasSet = true → opts.project.value ≠ "" →
         r.client.listProjects r.owner r.repo = .ok ps →
         ps.find? (fun pr => pr.title == opts.project.value) = none →
         ("Warning: project " ++ goQuote opts.project.value ++ " not found\n") ∈ (r.run opts).writes) ∧
       (∀ ps proj e2, opts.project.wasSet = true → opts.project.value ≠ "" →
         r.client.listProjects r.owner r.repo = .ok ps →
         ps.find? (fun pr => pr.title == opts.project.value) = some proj →
         r.client.getIssueNodeID r.owner r.repo res.number = .error e2 →
         ("Warning: failed to get issue node ID: " ++ e2.text ++ "\n") ∈ (r.run opts).writes) ∧
       (∀ ps proj nid e3, opts.project.wasSet = true → opts.project.value ≠ "" →
         r.client.listProjects r.owner r.repo = .ok ps →
         ps.find? (fun pr => pr.title == opts.project.value) = some proj →
         r.client.getIssueNodeID r.owner r.repo res.number = .ok nid →
         r.client.addIssueToProject proj.id nid = .error e3 →
         ("Warning: failed to add issue to project: " ++ e3.text ++ "\n") ∈ (r.run opts).writes))) ∧
    (∀ (er : EditRunner) (eo : EditOptions),
      eo.project.wasSet = true →
      ((∀ e, er.client.listProjects er.owner er.repo = .error e →
         (editRun er eo).result = .error (.msg ("failed to list projects: " ++ e.text))) ∧
       (∀ ps, eo.project.value ≠ "" →
         er.client.listProjects er.owner er.repo = .ok ps →
         ps.find? (fun pr => pr.title == eo.project.value) = none →
         (editRun er eo).result = .error (.msg ("project " ++ goQuote eo.project.value ++
           " not found\nAvailable projects: " ++ goStringsFmt (ps.map Project.title)))) ∧
       (∀ ps proj e2, eo.project.value ≠ "" →
         er.client.listProjects er.owner er.repo = .ok ps →
         ps.find? (fun pr => pr.title == eo.project.value) = some proj →
         er.client.getIssueNodeID er.owner er.repo eo.issueNumber = .error e2 →
         (editRun er eo).result = .error (.msg ("failed to get issue: " ++ e2.text))) ∧
       (∀ ps proj nid e3, eo.project.value ≠ "" →
         er.client.listProjects er.owner er.repo = .ok ps →
         ps.find? (fun pr => pr.title == eo.project.value) = some proj →
         er.client.getIssueNodeID er.owner er.repo eo.issueNumber = .ok nid →
         er.client.addIssueToProject proj.id nid = .error e3 →
         (editRun er eo).result = .error (.msg ("failed to add issue to project: " ++ e3.text))))) := by
  constructor
  · intro r opts p t bd cs1 cs2 cs3 cs4 res hp ht hb hv hcr hl
    rw [run_eq_of_link_ok r opts hp ht hb hv hcr hl]
    refine ⟨rfl, ?_, ?_, ?_, ?_⟩
    · intro e hws hlp
      rw [if_pos hws]
      have ha : addToProject r opts res =
          (["Warning: failed to list projects: " ++ e.text ++ "\n"], [.listProjects r.owner r.repo]) := by
        simp [addToProject, hlp]
      rw [ha]
      simp
    · intro ps hws hvne hlp hfind
      rw [if_pos hws]
      have ha : addToProject r opts res =
          (["Warning: project " ++ goQuote opts.project.value ++ " not found\n"],
           [.listProjects r.owner r.repo]) := by
        simp [addToProject, hlp, hvne, hfind]
      rw [ha]
      simp
    · intro ps proj e2 hws hvne hlp hfind hnode
      rw [if_pos hws]
      have ha : (addToProject r opts res).1 =
          ["Warning: failed to get issue node ID: " ++ e2.text ++ "\n"] := by
        simp [addToProject, hlp, hvne, hfind, finishAddToProject, hnode]
      rw [ha]
      simp
    · intro ps proj nid e3 hws hvne hlp hfind hnid hadd
      rw [if_pos hws]
      have ha : (addToProject r opts res).1 =
          ["Warning: failed to add issue to project: " ++ e3.text ++ "\n"] := by
        simp [addToProject, hlp, hvne, hfind, finishAddToProject, hnid, hadd]
      rw [ha]
      simp
  · intro er eo hws
    refine ⟨?_, ?_, ?_, ?_⟩
    · intro e hlp
      simp [editRun, hws, hlp]
    · intro ps hvne hlp hfind
      simp [editRun, hws, hvne, hlp, hfind]
    · intro ps proj e2 hvne hlp hfind hnode
      simp [editRun, hws, hvne, hlp, hfind, editFinish, hnode]
    · intro ps proj nid e3 hvne hlp hfind hnid hadd
      simp [editRun, hws, hvne, hlp, hfind, editFinish, hnid, hadd]

/-- Witness for C8 (amended): at concrete runners, a create-side node-id
failure only warns while the run succeeds, and an edit-side listing failure
is a fatal error. -/
theorem project_failures_fatality_witness :
    ((runnerC8.run optsC8).result = .ok () ∧
     ("Warning: failed to get issue node ID: " ++ "node boom" ++ "\n") ∈ (runnerC8.run optsC8).writes) ∧
    (editRun editRunnerC8 editOptsC8).result = .error (.msg ("failed to list projects: " ++ "boom")) := by
  constructor
  · have h := project_failures_fatality.1 runnerC8 optsC8 42 "Fix bug" "" [] [] [] []
      ⟨777, 9, "https://github.com/acme/site/issues/9"⟩
      (by decide) (by decide) (by decide) (by decide) (by decide) (by decide)
    exact ⟨h.1, h.2.2.2.1 [⟨"PVT_1", "Roadmap", 1⟩] ⟨"PVT_1", "Roadmap", 1⟩ (.msg "node boom")
      rfl (by decide) (by decide) (by decide) (by decide)⟩
  · exact (project_failures_fatality.2 editRunnerC8 editOptsC8 rfl).1 (.msg "boom") (by decide)

set_option maxRecDepth 8192 in
/-- C9 counterexample: with the project option set-empty, no prompter, and
a project "Roadmap" available, the create workflow's warning is the fixed
text only — it does not list the available project titles or an example
command, contradicting the claim. -/
theorem project_set_empty_warning_no_titles_cex :
    runnerC9.prompter = none ∧ optsC9.project = ⟨"", true⟩ ∧
    runnerC9.client.listProjects "acme" "site" = .ok [⟨"PVT_1", "Roadmap", 1⟩] ∧
    (runnerC9.run optsC9).result = .ok () ∧
    (runnerC9.run optsC9).writes =
      ["Warning: --project requires a project name when not running interactively\n",
       "https://github.com/acme/site/issues/9" ++ "\n"] ∧
    (∀ w ∈ (runnerC9.run optsC9).writes, ¬ ("Roadmap".data <:+: w.data)) :=
  ⟨rfl, rfl, by decide, by decide, by decide, by decide⟩

/-- C9 (amended): in the create workflow with the project option set-empty,
if no Prompter is available a non-fatal warning with the fixed text
"--project requires a project name when not running interactively" is
emitted (without listing project titles or an example command — those
appear only in the edit command's error); if a Prompter is available and no
projects exist, a non-fatal "no projects found" warning is emitted; in both
cases the workflow still returns success. -/
theorem project_set_empty_warnings (r : Runner) (opts : Options) (p : Int) (t bd : String)
    (cs1 cs2 cs3 cs4 : List Call) (res : IssueResult)
    (hp : resolveParent r opts.parent = (.ok p, cs1))
    (ht : resolveTitle r opts.title = (.ok t, cs2))
    (hb : resolveBody r opts.body opts.bodyFile = (.ok bd, cs3))
    (hv : validateParentStep r p = (.ok (), cs4))
    (hcr : r.client.createIssue ⟨r.owner, r.repo, t, bd, opts.labels, opts.assignees, opts.milestone⟩ = .ok res)
    (hl : r.client.linkSubIssue ⟨r.owner, r.repo, p, res.id⟩ = .ok ()) :
    (∀ ps, opts.project.wasSet = true → opts.project.value = "" → r.prompter = none →
      r.client.listProjects r.owner r.repo = .ok ps →
      (r.run opts).result = .ok () ∧
      ("Warning: --project requires a project name when not running interactively\n") ∈ (r.run opts).writes) ∧
    (∀ pr2, opts.project.wasSet = true → opts.project.value = "" → r.prompter = some pr2 →
      r.client.listProjects r.owner r.repo = .ok [] →
      (r.run opts).result = .ok () ∧
      ("Warning: no projects found for this repository\n") ∈ (r.run opts).writes) := by
  rw [run_eq_of_link_ok r opts hp ht hb hv hcr hl]
  constructor
  · intro ps hws hval hpr hlp
    refine ⟨rfl, ?_⟩
    rw [if_pos hws]
    have ha : (addToProject r opts res).1 =
        ["Warning: --project requires a project name when not running interactively\n"] := by
      simp [addToProject, hlp, hval, hpr]
    rw [ha]
    simp
  · intro pr2 hws hval hpr hlp
    refine ⟨rfl, ?_⟩
    rw [if_pos hws]
    have ha : (addToProject r opts res).1 =
        ["Warning: no projects found for this repository\n"] := by
      simp [addToProject, hlp, hval, hpr]
    rw [ha]
    simp

/-- Witness for C9 (amended): the concrete non-interactive runner with a
set-empty project option warns with the fixed text and still succeeds. -/
theorem project_set_empty_warnings_witness :
    (runnerC9.run optsC9).result = .ok () ∧
    ("Warning: --project requires a project name when not running interactively\n") ∈ (runnerC9.run optsC9).writes := by
  have h := project_set_empty_warnings runnerC9 optsC9 42 "Fix bug" "" [] [] [] []
    ⟨777, 9, "https://github.com/acme/site/issues/9"⟩
    (by decide) (by decide) (by decide) (by decide) (by decide) (by decide)
  exact h.1 [⟨"PVT_1", "Roadmap", 1⟩] rfl rfl rfl (by decide)

theorem fetchRepoPages_calls_spec (client : ReposAPIClient) (owner : String)
    (limit perPage page : Int) (acc : List Repository) :
    ∀ i : Nat, i < (fetchRepoPages client owner limit perPage page acc).2.length →
      (fetchRepoPages client owner limit perPage page acc).2[i]? =
        some ⟨owner, perPage, page + i⟩ := by
  induction page, acc using fetchRepoPages.induct client owner limit perPage
  case case1 page acc h req e heq =>
    have heq2 : client.listRepositories ⟨owner, perPage, page⟩ = .error e := heq
    rw [fetchRepoPages.eq_def]
    simp only [dif_pos h, heq2]
    intro i hi
    simp only [List.length_singleton] at hi
    have hz : i = 0 := by omega
    subst hz
    simp
  case case2 page acc h req repos heq h0 =>
    have heq2 : client.listRepositories ⟨owner, perPage, page⟩ = .ok repos := heq
    rw [fetchRepoPages.eq_def]
    simp only [dif_pos h, heq2, dif_pos h0]
    intro i hi
    simp only [List.length_singleton] at hi
    have hz : i = 0 := by omega
    subst hz
    simp
  case case3 page acc h req repos heq h0 hshort =>
    have heq2 : client.listRepositories ⟨owner, perPage, page⟩ = .ok repos := heq
    rw [fetchRepoPages.eq_def]
    simp only [dif_pos h, heq2, dif_neg h0, if_pos hshort]
    intro i hi
    simp only [List.length_singleton] at hi
    have hz : i = 0 := by omega
    subst hz
    simp
  case case4 page acc h req repos heq h0 hshort ih =>
    have heq2 : client.listRepositories ⟨owner, perPage, page⟩ = .ok repos := heq
    rw [fetchRepoPages.eq_def]
    simp only [dif_pos h, heq2, dif_neg h0, if_neg hshort]
    intro i hi
    cases i with
    | zero => simp
    | succ n =>
      simp only [List.length_cons] at hi
      have hn : n < (fetchRepoPages client owner limit perPage (page + 1) (acc ++ repos)).2.length := by
        omega
      have hrec := ih n hn
      simp only [List.getElem?_cons_succ]
      rw [hrec]
      simp only [Option.some.injEq, ListRepositoriesOptions.mk.injEq, true_and]
      push_cast
      omega
  case case5 page acc h =>
    rw [fetchRepoPages.eq_def]
    simp only [dif_neg h]
    intro i hi
    simp at hi

theorem reposRun_of_fetch (r : ReposRunner) (opts : ReposOptions) (rs : List Repository)
    (calls : List ListRepositoriesOptions) (ho : opts.owner ≠ "")
    (hf : fetchRepoPages r.client opts.owner opts.limit
      (if opts.limit < 100 then opts.limit else 100) 1 [] = (.ok rs, calls)) :
    reposRun r opts = ⟨.ok (), reposRender opts opts.owner rs, calls⟩ := by
  unfold reposRun
  simp only [if_neg ho, hf]

theorem reposRun_calls_of_owner (r : ReposRunner) (opts : ReposOptions) (ho : opts.owner ≠ "") :
    (reposRun r opts).calls =
      (fetchRepoPages r.client opts.owner opts.limit
        (if opts.limit < 100 then opts.limit else 100) 1 []).2 := by
  unfold reposRun
  simp only [if_neg ho]
  split <;> rfl

theorem reposRender_length_le (opts : ReposOptions) (owner : String) (raw : List Repository) :
    (reposRender opts owner raw).length ≤ 1 + opts.limit.toNat := by
  unfold reposRender
  set allRepos := if ((raw.length : Int) > opts.limit) then raw.take opts.limit.toNat else raw with hall
  have hallLen : allRepos.length ≤ opts.limit.toNat := by
    rw [hall]
    split
    · simp [List.length_take]
    · rename_i hle
      omega
  have hfil : (filterRepos opts allRepos).length ≤ allRepos.length := by
    unfold filterRepos
    exact List.length_filter_le _ _
  by_cases hemp : (filterRepos opts allRepos).length = 0
  · simp only [if_pos hemp]
    split <;> (simp only [List.length_singleton]; omega)
  · simp only [if_neg hemp, List.length_append, List.length_map]
    split <;> simp only [List.length_singleton, List.length_nil] <;> omega

theorem fetch_cex_eval :
    fetchRepoPages reposRunnerCex.client "org" 150 100 1 [] =
      (.ok (List.replicate 100 repoEnabledFix ++ List.replicate 50 repoEnabledFix),
       [⟨"org", 100, 1⟩, ⟨"org", 100, 2⟩]) := by
  rw [fetchRepoPages.eq_def]
  norm_num [reposRunnerCex, reposClientCex]
  rw [fetchRepoPages.eq_def]
  norm_num [reposRunnerCex, reposClientCex]

theorem fetch_five_eval :
    fetchRepoPages reposRunnerFive.client "org" 3 3 1 [] =
      (.ok [⟨"repo1", "org/repo1", true, false⟩, ⟨"repo2", "org/repo2", true, false⟩,
            ⟨"repo3", "org/repo3", true, false⟩],
       [⟨"org", 3, 1⟩]) := by
  rw [fetchRepoPages.eq_def]
  norm_num [reposRunnerFive, pagedListClient, reposFive]
  rw [fetchRepoPages.eq_def]
  norm_num
  decide

theorem fetch_mixed_eval :
    fetchRepoPages reposRunnerMixed.client "org" 30 30 1 [] =
      (.ok [⟨"repo1", "org/repo1", true, false⟩, ⟨"repo2", "org/repo2", false, false⟩,
            ⟨"repo3", "org/repo3", true, true⟩],
       [⟨"org", 30, 1⟩]) := by
  rw [fetchRepoPages.eq_def]
  norm_num [reposRunnerMixed, reposClientMixed]

theorem filterRepos_both_nil (opts : ReposOptions) (repos : List Repository)
    (he : opts.enabled = true) (hd : opts.disabled = true) :
    filterRepos opts repos = [] := by
  unfold filterRepos
  simp only [he, hd]
  induction repos with
  | nil => rfl
  | cons x xs ih =>
    simp only [List.filter_cons]
    cases hx : repoEnabled x <;> simp [hx, ih]

/-- C5 (amended): the repos workflow paginates with a page size equal to
the lesser of 100 and the requested limit, computed once before the loop
(not from the remaining limit), starting at page 1 and incrementing by one
per request while results are non-empty and the accumulated count is below
the limit; a page with zero rows or fewer rows than requested is the last
request; the rendered output is truncated to at most the limit plus one
header line; and for 5 available repositories with limit 3 the output is
exactly one header row plus 3 repository rows (4 lines). -/
theorem repos_pagination_spec :
    (∀ (r : ReposRunner) (opts : ReposOptions), opts.owner ≠ "" →
      ∀ i : Nat, i < (reposRun r opts).calls.length →
        (reposRun r opts).calls[i]? =
          some ⟨opts.owner, if opts.limit < 100 then opts.limit else 100, 1 + (i : Int)⟩) ∧
    (∀ (client : ReposAPIClient) (owner : String) (limit perPage page : Int)
      (acc rs : List Repository), (acc.length : Int) < limit →
      client.listRepositories ⟨owner, perPage, page⟩ = .ok rs →
      (rs.length = 0 ∨ (rs.length : Int) < perPage) →
      fetchRepoPages client owner limit perPage page acc =
        (.ok (if rs.length = 0 then acc else acc ++ rs), [⟨owner, perPage, page⟩])) ∧
    (∀ (client : ReposAPIClient) (owner : String) (limit perPage page : Int)
      (acc : List Repository), ¬((acc.length : Int) < limit) →
      fetchRepoPages client owner limit perPage page acc = (.ok acc, [])) ∧
    (∀ (r : ReposRunner) (opts : ReposOptions),
      (reposRun r opts).writes.length ≤ 1 + opts.limit.toNat) ∧
    ((reposRun reposRunnerFive reposOptsFive).writes =
      ["REPOSITORY          SUB-ISSUES\n",
       "org/repo1           enabled\n",
       "org/repo2           enabled\n",
       "org/repo3           enabled\n"] ∧
     (reposRun reposRunnerFive reposOptsFive).writes.length = 4) := by
  refine ⟨?_, ?_, ?_, ?_, ?_⟩
  · intro r opts ho i hi
    rw [reposRun_calls_of_owner r opts ho] at hi ⊢
    exact fetchRepoPages_calls_spec r.client opts.owner opts.limit _ 1 [] i hi
  · intro client owner limit perPage page acc rs hlt hres hstop
    rw [fetchRepoPages.eq_def]
    simp only [dif_pos hlt, hres]
    by_cases h0 : rs.length = 0
    · simp [h0]
    · rcases hstop with hc | hshort
      · exact absurd hc h0
      · simp [h0, hshort]
  · intro client owner limit perPage page acc hge
    rw [fetchRepoPages.eq_def]
    simp [dif_neg hge]
  · intro r opts
    unfold reposRun
    dsimp only
    repeat' split
    all_goals first
      | exact reposRender_length_le opts _ _
      | simp
  · have hrun := reposRun_of_fetch reposRunnerFive reposOptsFive
      [⟨"repo1", "org/repo1", true, false⟩, ⟨"repo2", "org/repo2", true, false⟩,
       ⟨"repo3", "org/repo3", true, false⟩]
      [⟨"org", 3, 1⟩] (by decide) fetch_five_eval
    rw [hrun]
    exact ⟨by decide, by decide⟩

/-- Witness for C5: the five-repository fixture with limit 3 makes its
first page request with size 3 at page 1, and its output respects the
bound of one header plus the limit. -/
theorem repos_pagination_spec_witness :
    (reposRun reposRunnerFive reposOptsFive).calls[0]? = some ⟨"org", 3, 1⟩ ∧
    fetchRepoPages reposRunnerMixed.client "o2" 30 30 1 [] =
      (.ok ((([] : List Repository) ++
        [⟨"repo1", "org/repo1", true, false⟩, ⟨"repo2", "org/repo2", false, false⟩,
         ⟨"repo3", "org/repo3", true, true⟩])), [⟨"o2", 30, 1⟩]) ∧
    fetchRepoPages (pagedListClient reposFive) "org" 3 3 2
      [⟨"repo1", "org/repo1", true, false⟩, ⟨"repo2", "org/repo2", true, false⟩,
       ⟨"repo3", "org/repo3", true, false⟩] =
      (.ok [⟨"repo1", "org/repo1", true, false⟩, ⟨"repo2", "org/repo2", true, false⟩,
            ⟨"repo3", "org/repo3", true, false⟩], []) ∧
    (reposRun reposRunnerFive reposOptsFive).writes.length ≤ 1 + reposOptsFive.limit.toNat := by
  have hrun := reposRun_of_fetch reposRunnerFive reposOptsFive
    [⟨"repo1", "org/repo1", true, false⟩, ⟨"repo2", "org/repo2", true, false⟩,
     ⟨"repo3", "org/repo3", true, false⟩]
    [⟨"org", 3, 1⟩] (by decide) fetch_five_eval
  refine ⟨?_, ?_, ?_, repos_pagination_spec.2.2.2.1 reposRunnerFive reposOptsFive⟩
  · have h := repos_pagination_spec.1 reposRunnerFive reposOptsFive (by decide) 0 (by rw [hrun]; decide)
    simpa using h
  · have h := repos_pagination_spec.2.1 reposRunnerMixed.client "o2" 30 30 1 []
      [⟨"repo1", "org/repo1", true, false⟩, ⟨"repo2", "org/repo2", false, false⟩,
       ⟨"repo3", "org/repo3", true, true⟩]
      (by decide) (by decide) (.inr (by decide))
    simpa using h
  · exact repos_pagination_spec.2.2.1 (pagedListClient reposFive) "org" 3 3 2
      [⟨"repo1", "org/repo1", true, false⟩, ⟨"repo2", "org/repo2", true, false⟩,
       ⟨"repo3", "org/repo3", true, false⟩] (by decide)

/-- C5 counterexample: with limit 150 and a first page of 100 rows, the
remaining requested limit before the second request is 50, yet the second
request still asks for 100 rows: the page size is min(100, limit) computed
once before the loop, not the lesser of 100 and the remaining limit. -/
theorem repos_pagination_remaining_cex :
    (reposRun reposRunnerCex reposOptsCex).calls = [⟨"org", 100, 1⟩, ⟨"org", 100, 2⟩] ∧
    reposOptsCex.limit - 100 = 50 ∧ ((100 : Int) ≠ 50) := by
  refine ⟨?_, by decide, by decide⟩
  rw [reposRun_calls_of_owner reposRunnerCex reposOptsCex (by decide)]
  exact congrArg Prod.snd fetch_cex_eval

/-- C6: a repository is enabled iff it has issues enabled and is not
archived; the enabled filter keeps exactly the enabled repositories, the
disabled filter keeps exactly the non-enabled ones, and with both filters
set no repository passes: the run still succeeds and prints the
no-matching-repositories message instead of rejecting the combination. -/
theorem repos_enabled_filter_spec :
    (∀ repo : Repository, repoStatus repo = "enabled" ↔ (repo.hasIssues = true ∧ repo.archived = false)) ∧
    (∀ (opts : ReposOptions) (repos : List Repository), opts.enabled = true → opts.disabled = false →
      filterRepos opts repos = repos.filter repoEnabled) ∧
    (∀ (opts : ReposOptions) (repos : List Repository), opts.enabled = false → opts.disabled = true →
      filterRepos opts repos = repos.filter (fun repo => !repoEnabled repo)) ∧
    (∀ (opts : ReposOptions) (repos : List Repository), opts.enabled = true → opts.disabled = true →
      filterRepos opts repos = []) ∧
    (∀ (r : ReposRunner) (opts : ReposOptions) (rs : List Repository)
      (calls : List ListRepositoriesOptions),
      opts.enabled = true → opts.disabled = true → opts.owner ≠ "" →
      fetchRepoPages r.client opts.owner opts.limit
        (if opts.limit < 100 then opts.limit else 100) 1 [] = (.ok rs, calls) →
      (reposRun r opts).result = .ok () ∧
      (reposRun r opts).writes = ["No matching repositories found for " ++ opts.owner ++ "\n"]) := by
  refine ⟨?_, ?_, ?_, ?_, ?_⟩
  · intro repo
    obtain ⟨n, f, hi, ar⟩ := repo
    cases hi <;> cases ar <;> simp [repoStatus] <;> decide
  · intro opts repos he hd
    unfold filterRepos
    simp [he, hd]
  · intro opts repos he hd
    unfold filterRepos
    simp [he, hd]
  · intro opts repos he hd
    exact filterRepos_both_nil opts repos he hd
  · intro r opts rs calls he hd ho hf
    rw [reposRun_of_fetch r opts rs calls ho hf]
    refine ⟨rfl, ?_⟩
    unfold reposRender
    simp [filterRepos_both_nil opts _ he hd, he, hd]

/-- Witness for C6: the mixed three-repository fixture with both filters
set succeeds and prints the no-matching message; its enabled repository is
classified as enabled; the both-filter pass keeps nothing. -/
theorem repos_enabled_filter_spec_witness :
    repoStatus ⟨"repo1", "org/repo1", true, false⟩ = "enabled" ∧
    filterRepos reposOptsBoth
      [⟨"repo1", "org/repo1", true, false⟩, ⟨"repo2", "org/repo2", false, false⟩,
       ⟨"repo3", "org/repo3", true, true⟩] = [] ∧
    ((reposRun reposRunnerMixed reposOptsBoth).result = .ok () ∧
     (reposRun reposRunnerMixed reposOptsBoth).writes =
       ["No matching repositories found for " ++ "org" ++ "\n"]) := by
  refine ⟨?_, ?_, ?_⟩
  · exact (repos_enabled_filter_spec.1 ⟨"repo1", "org/repo1", true, false⟩).mpr ⟨rfl, rfl⟩
  · exact repos_enabled_filter_spec.2.2.2.1 reposOptsBoth _ rfl rfl
  · exact repos_enabled_filter_spec.2.2.2.2 reposRunnerMixed reposOptsBoth
      [⟨"repo1", "org/repo1", true, false⟩, ⟨"repo2", "org/repo2", false, false⟩,
       ⟨"repo3", "org/repo3", true, true⟩]
      [⟨"org", 30, 1⟩] rfl rfl (by decide) fetch_mixed_eval

end GhSubissue


